import Mathlib

/-!
Verification of the CRUD Flask sales API (`app.py`).

A shallow embedding of the request-handling core of the repository's
`app.py`: the validation utilities (`_parse_int`, `_parse_decimal`,
`_parse_date`), the dual-format response encoder (`_get_format`,
`api_response`, `error_response`), the auth gate (`require_jwt`), the
storage-error translator (`_handle_db_error`), the resource handlers
(categories / regions / customers / products / sales CRUD and
`search_sales`), and the Flask error-handling dispatch layer
(`errorhandler(BadRequest)` / `errorhandler(NotFound)` /
`errorhandler(Exception)`, with the WSGI server's plain 500 as the final
fallback when an error handler itself raises).

The external MySQL database is modelled as explicit in-memory tables with
an injectable storage failure (`Db.failure`), since the schema is owned by
the database and any driver/connection error can surface as an exception
with an arbitrary message.  JWT cryptography is abstracted into a verifier
`String → VerifyResult` with the three outcomes `jwt.decode` can have in
`require_jwt` (success, `ExpiredSignatureError`, `InvalidTokenError`).
-/

namespace CrudFlask

/-! ## Python string primitives -/

/-- Python `str.strip()` (ASCII whitespace; the inputs handled by this API
are ASCII). Removes leading and trailing whitespace characters. -/
def pyStrip (s : String) : String :=
  ⟨((s.toList.dropWhile Char.isWhitespace).reverse.dropWhile Char.isWhitespace).reverse⟩

/-- Python `str.lower()` restricted to ASCII letters. -/
def pyCharLower (c : Char) : Char :=
  if 'A' ≤ c ∧ c ≤ 'Z' then Char.ofNat (c.toNat + 32) else c

/-- Python `str.lower()` on a string (ASCII model). -/
def pyLower (s : String) : String :=
  ⟨s.toList.map pyCharLower⟩

/-- Digit run accepted by Python `int(str)` after the first digit:
digits with single underscores allowed between digits. Accumulates the
value in base 10. -/
def pyDigitsGo : List Char → Nat → Option Nat
  | [], acc => some acc
  | c :: rest, acc =>
    if c.isDigit then pyDigitsGo rest (acc * 10 + (c.toNat - 48))
    else if c = '_' then
      match rest with
      | [] => none
      | d :: rest2 =>
        if d.isDigit then pyDigitsGo rest2 (acc * 10 + (d.toNat - 48)) else none
    else none

/-- Nonempty digit run (with inner underscores) accepted by `int(str)`. -/
def pyDigits : List Char → Option Nat
  | [] => none
  | c :: rest => if c.isDigit then pyDigitsGo rest (c.toNat - 48) else none

/-- Python `int(s)` for a string `s`: surrounding whitespace stripped,
optional single sign, base-10 digits with single underscores between
digits; anything else raises `ValueError` (`none` here). -/
def pyStrToInt (s : String) : Option Int :=
  match (pyStrip s).toList with
  | '+' :: rest => (pyDigits rest).map (fun n => (n : Int))
  | '-' :: rest => (pyDigits rest).map (fun n => -(n : Int))
  | l => (pyDigits l).map (fun n => (n : Int))

/-- Truncation of a rational toward zero: the conversion CPython's
`int(float)` performs (every binary float is an exact rational). -/
def ratTrunc (q : Rat) : Int :=
  if 0 ≤ q.num then ((q.num.toNat / q.den : Nat) : Int)
  else -(((-q.num).toNat / q.den : Nat) : Int)

/-! ## Python values (JSON scalars and containers) -/

/-- A Python value as it appears in a parsed JSON request body or in a
response payload.  Floats are carried as the exact rational they denote. -/
inductive Value where
  | null
  | bool (b : Bool)
  | int (n : Int)
  | float (q : Rat)
  | str (s : String)
  | list (xs : List Value)
  | obj (kvs : List (String × Value))

mutual

/-- Structural equality test on values (Python `==` / `!=` across the
JSON-representable values used by the API; values of different types
compare unequal, matching `5 != "admin"` etc.).  Python's `1 == True`
numeric cross-type equality is irrelevant here because the configured
credentials are always strings. -/
def Value.beq : Value → Value → Bool
  | .null, .null => true
  | .bool a, .bool b => a == b
  | .int a, .int b => a == b
  | .float a, .float b => a == b
  | .str a, .str b => a == b
  | .list xs, .list ys => Value.listBeq xs ys
  | .obj xs, .obj ys => Value.objBeq xs ys
  | _, _ => false

def Value.listBeq : List Value → List Value → Bool
  | [], [] => true
  | x :: xs, y :: ys => Value.beq x y && Value.listBeq xs ys
  | _, _ => false

def Value.objBeq : List (String × Value) → List (String × Value) → Bool
  | [], [] => true
  | (k1, v1) :: xs, (k2, v2) :: ys => k1 == k2 && Value.beq v1 v2 && Value.objBeq xs ys
  | _, _ => false

end

/-- Python truthiness of a value (`bool(v)`). -/
def pyTruthy : Value → Bool
  | .null => false
  | .bool b => b
  | .int n => n ≠ 0
  | .float q => q ≠ 0
  | .str s => s ≠ ""
  | .list xs => !xs.isEmpty
  | .obj kvs => !kvs.isEmpty

/-- Python `x or y` on values: `x` if truthy, else `y`. -/
def pyOr (x y : Value) : Value := if pyTruthy x then x else y

/-- Python `int(v)`: `none` models `TypeError`/`ValueError`. Booleans are
ints, floats truncate toward zero, strings are parsed, `None` and
containers raise. -/
def pyIntOfValue : Value → Option Int
  | .null => none
  | .bool b => some (if b then 1 else 0)
  | .int n => some n
  | .float q => some (ratTrunc q)
  | .str s => pyStrToInt s
  | .list _ => none
  | .obj _ => none

/-- Python `float(v)` on the shapes this API can receive; string parsing
covers the plain decimal forms `[sign] digits [. digits]` (the forms the
claims exercise; exotic literals are irrelevant to every handler below
because the parsed number is only echoed back). `none` models
`TypeError`/`ValueError`. -/
def pyFloatOfValue : Value → Option Rat
  | .null => none
  | .bool b => some (if b then 1 else 0)
  | .int n => some (n : Rat)
  | .float q => some q
  | .str s =>
    match (pyStrip s).toList with
    | '+' :: rest => pyDecimalDigits rest
    | '-' :: rest => (pyDecimalDigits rest).map (fun q => -q)
    | l => pyDecimalDigits l
  | .list _ => none
  | .obj _ => none
where
  /-- `digits [. digits]`, value as a rational. -/
  pyDecimalDigits (l : List Char) : Option Rat :=
    let intPart := l.takeWhile Char.isDigit
    let rest := l.dropWhile Char.isDigit
    match rest with
    | [] => if intPart.isEmpty then none else
        some ((intPart.foldl (fun a c => a * 10 + (c.toNat - 48)) 0 : Nat) : Rat)
    | '.' :: frac =>
      if frac.all Char.isDigit ∧ ¬(intPart.isEmpty ∧ frac.isEmpty) then
        let ip : Nat := intPart.foldl (fun a c => a * 10 + (c.toNat - 48)) 0
        let fp : Nat := frac.foldl (fun a c => a * 10 + (c.toNat - 48)) 0
        some ((ip : Rat) + (fp : Rat) / ((10 : Rat) ^ frac.length))
      else none
    | _ => none

/-! ## Dates (`datetime.date.fromisoformat`) -/

/-- A calendar date as `datetime.date` carries it. -/
structure PyDate where
  year : Nat
  month : Nat
  day : Nat
  deriving DecidableEq, Repr

/-- Gregorian leap year, as `datetime` computes it. -/
def isLeap (y : Nat) : Bool := y % 4 = 0 && (y % 100 ≠ 0 || y % 400 = 0)

/-- Days in a month, as `datetime` computes it. -/
def daysInMonth (y m : Nat) : Nat :=
  if m = 2 then (if isLeap y then 29 else 28)
  else if m = 4 ∨ m = 6 ∨ m = 9 ∨ m = 11 then 30
  else 31

/-- Days in the years before year `y` of the proleptic Gregorian
calendar, as CPython's `days_before_year` computes it (C truncated
division; `y` comes from four digits, so `0 ≤ y ≤ 9999`, and only `y = 0`
makes the value negative). -/
def daysBeforeYear (y : Nat) : Int :=
  365 * ((y : Int) - 1) + Int.tdiv ((y : Int) - 1) 4 -
    Int.tdiv ((y : Int) - 1) 100 + Int.tdiv ((y : Int) - 1) 400

/-- The proleptic-Gregorian ordinal of 1 January of year `y`
(`ymd_to_ord(y, 1, 1)`). -/
def jan1Ord (y : Nat) : Int := daysBeforeYear y + 1

/-- The ordinal of the Monday of ISO week 1 of year `y` (CPython
`iso_week1_monday`).  C computes the weekday with truncated `%`; the
Euclidean remainder used here gives the same Monday on the whole domain:
for `y ≥ 1` the ordinal is positive and the remainders agree, and for the
one negative case `y = 0` (1 January ordinal −364, weekday −1 in C vs 6
here) the `> 3` compensation makes both yield −363. -/
def isoWeek1Monday (y : Nat) : Int :=
  let firstDay := jan1Ord y
  let firstWeekday := Int.emod (firstDay + 6) 7
  let week1Monday := firstDay - firstWeekday
  if firstWeekday > 3 then week1Monday + 7 else week1Monday

/-- Whether ISO year `y` has 53 weeks (the check in CPython's
`iso_to_ymd`): years starting on Thursday, and leap years starting on
Wednesday.  For `y = 0` C's truncated weekday is −1 and this Euclidean
one is 6; neither equals 2 or 3, so both reject week 53. -/
def isoLongYear (y : Nat) : Bool :=
  let w := Int.emod (jan1Ord y + 6) 7
  w = 3 ∨ (w = 2 ∧ isLeap y)

/-- Month walk of CPython's `ord_to_ymd`: starting at month `m` with
`fuel` more months to try before falling into month 12. -/
def monthDayGo (y : Nat) : Nat → Nat → Nat → Nat × Nat
  | 0, dayIdx, m => (m, dayIdx + 1)
  | fuel + 1, dayIdx, m =>
    if dayIdx < daysInMonth y m then (m, dayIdx + 1)
    else monthDayGo y fuel (dayIdx - daysInMonth y m) (m + 1)

/-- Month and 1-based day from a 0-based day-of-year index. -/
def monthDayAux (y dayIdx m : Nat) : Nat × Nat := monthDayGo y 11 dayIdx m

/-- CPython `ord_to_ymd`: the proleptic-Gregorian date of a positive
ordinal (day 1 = 0001-01-01). -/
def ordToYmd (ordinal : Nat) : Nat × Nat × Nat :=
  let n := ordinal - 1
  let n400 := n / 146097
  let r400 := n % 146097
  let n100 := r400 / 36524
  let r100 := r400 % 36524
  let n4 := r100 / 1461
  let r4 := r100 % 1461
  let n1 := r4 / 365
  let r1 := r4 % 365
  let year := n400 * 400 + n100 * 100 + n4 * 4 + n1 + 1
  if n1 = 4 ∨ n100 = 4 then (year - 1, 12, 31)
  else
    let md := monthDayAux year r1 1
    (year, md.1, md.2)

/-- CPython `iso_to_ymd` plus the `date` constructor's range check: week
1–52 always, week 53 only in long years, day 1–7, and the resulting
Gregorian date must fall in years 1–9999. -/
def isoToYmd (y w d : Nat) : Option PyDate :=
  if w = 0 ∨ 54 ≤ w then none
  else if w = 53 ∧ ¬isoLongYear y then none
  else if d = 0 ∨ 8 ≤ d then none
  else
    let ordinal : Int := isoWeek1Monday y + ((w : Int) - 1) * 7 + ((d : Int) - 1)
    if ordinal < 1 then none
    else
      let t := ordToYmd ordinal.toNat
      if t.1 ≤ 9999 then some ⟨t.1, t.2.1, t.2.2⟩ else none

/-- `datetime.date.fromisoformat` as CPython 3.11+ implements it (the
runtimes this repository can run on — it pins no Python version, and all
currently supported interpreters are ≥ 3.11).  The string's length must
be 7, 8 or 10; after the four-digit year, either `MM[-]DD` or an ISO week
date `Www[-D]` follows, with consistent separator use; any characters
after the parsed fields are ignored (so `"2023010199"` parses as
2023-01-01, matching the C parser, which never checks that it consumed
the whole string); week dates are converted through the ISO week
calendar; the `date` constructor range-checks the result.  Behavior
validated case-by-case against CPython 3.11.6. -/
def dateFromIsoformat (s : String) : Option PyDate :=
  let cs := s.toList
  if ¬(cs.length = 7 ∨ cs.length = 8 ∨ cs.length = 10) then none
  else
    match cs with
    | y1 :: y2 :: y3 :: y4 :: rest =>
      if y1.isDigit ∧ y2.isDigit ∧ y3.isDigit ∧ y4.isDigit then
        let y := ((y1.toNat - 48) * 10 + (y2.toNat - 48)) * 100 +
                 (y3.toNat - 48) * 10 + (y4.toNat - 48)
        let usesSep : Bool := match rest with | '-' :: _ => true | _ => false
        let rest1 := if usesSep then rest.drop 1 else rest
        match rest1 with
        | 'W' :: w1 :: w2 :: restD =>
          if w1.isDigit ∧ w2.isDigit then
            let w := (w1.toNat - 48) * 10 + (w2.toNat - 48)
            match restD with
            | [] => isoToYmd y w 1
            | _ =>
              let restD2 := if usesSep then
                  (match restD with | '-' :: r => some r | _ => none)
                else some restD
              match restD2 with
              | some (d :: _) =>
                if d.isDigit then isoToYmd y w (d.toNat - 48) else none
              | _ => none
          else none
        | m1 :: m2 :: rest2 =>
          if m1.isDigit ∧ m2.isDigit then
            let m := (m1.toNat - 48) * 10 + (m2.toNat - 48)
            let rest3 := if usesSep then
                (match rest2 with | '-' :: r => some r | _ => none)
              else some rest2
            match rest3 with
            | some (d1 :: d2 :: _) =>
              if d1.isDigit ∧ d2.isDigit then
                let d := (d1.toNat - 48) * 10 + (d2.toNat - 48)
                if 1 ≤ y ∧ 1 ≤ m ∧ m ≤ 12 ∧ 1 ≤ d ∧ d ≤ daysInMonth y m then
                  some ⟨y, m, d⟩
                else none
              else none
            | _ => none
          else none
        | _ => none
      else none
    | _ => none

/-- Date comparison used by SQL `sale_date >= %s` / `<= %s`:
lexicographic on (year, month, day). -/
def PyDate.le (a b : PyDate) : Bool :=
  a.year < b.year ∨ (a.year = b.year ∧
    (a.month < b.month ∨ (a.month = b.month ∧ a.day ≤ b.day)))

/-- `str(date)` — ISO `YYYY-MM-DD`, the normalization the handlers apply
before encoding. -/
def PyDate.toIso (d : PyDate) : String :=
  let pad4 (n : Nat) : String :=
    if n < 10 then "000" ++ toString n
    else if n < 100 then "00" ++ toString n
    else if n < 1000 then "0" ++ toString n
    else toString n
  let pad2 (n : Nat) : String := if n < 10 then "0" ++ toString n else toString n
  pad4 d.year ++ "-" ++ pad2 d.month ++ "-" ++ pad2 d.day

/-! ## Exceptions and the validation utilities -/

/-- The exceptions that flow through the embedded handlers:
`werkzeug.BadRequest` (espoused by the validators and `_get_format`),
`werkzeug.NotFound`, storage-layer exceptions (MySQL driver errors,
carrying their message), and any other Python exception (e.g. the
`AttributeError` from `.strip()` on a non-string). -/
inductive Exc where
  | badRequest (msg : String)
  | notFound
  | dbError (msg : String)
  | pyError (msg : String)
  deriving DecidableEq, Repr

/-- `str(exc)` as `_handle_db_error` sees it; werkzeug HTTP exceptions
stringify as `"<code> <name>: <description>"`. -/
def excStr : Exc → String
  | .badRequest msg => "400 Bad Request: " ++ msg
  | .notFound => "404 Not Found: The requested URL was not found on the server."
  | .dbError msg => msg
  | .pyError msg => msg

/-- `_parse_int(value, field, minimum=...)` from `app.py`. -/
def parse_int (value : Value) (field : String) (minimum : Option Int := none) :
    Except Exc Int :=
  match pyIntOfValue value with
  | none => .error (.badRequest (field ++ " must be an integer"))
  | some parsed =>
    match minimum with
    | some m =>
      if parsed < m then .error (.badRequest (field ++ " must be >= " ++ toString m))
      else .ok parsed
    | none => .ok parsed

/-- `_parse_decimal(value, field)` from `app.py`. -/
def parse_decimal (value : Value) (field : String) : Except Exc Rat :=
  match pyFloatOfValue value with
  | none => .error (.badRequest (field ++ " must be a number"))
  | some parsed => .ok parsed

/-- `_parse_date(value, field)` from `app.py`.  `if not value or not
isinstance(value, str)` rejects every non-string, and the empty string
(the only falsy string); then `date.fromisoformat` decides. -/
def parse_date (value : Value) (field : String) : Except Exc PyDate :=
  match value with
  | .str s =>
    if s = "" then .error (.badRequest (field ++ " must be a date string (YYYY-MM-DD)"))
    else
      match dateFromIsoformat s with
      | some d => .ok d
      | none => .error (.badRequest (field ++ " must be a date string (YYYY-MM-DD)"))
  | _ => .error (.badRequest (field ++ " must be a date string (YYYY-MM-DD)"))

/-! ## Requests, responses, the dual-format encoder -/

/-- The parts of a Flask `request` the embedded handlers read: the
`Authorization` header, the `format` query parameter, the six search
query parameters, and the JSON body (`request.get_json(silent=True) or
{}`, modelled as its top-level dict). -/
structure Request where
  authHeader : Option String := none
  queryFormat : Option String := none
  qProductName : Option String := none
  qCategoryName : Option String := none
  qRegionName : Option String := none
  qCustomerId : Option String := none
  qDateFrom : Option String := none
  qDateTo : Option String := none
  body : List (String × Value) := []

/-- Python `body.get(key)`: first binding, `None` when absent. -/
def dictGet (kvs : List (String × Value)) (key : String) : Value :=
  match kvs.find? (fun kv => kv.1 = key) with
  | some kv => kv.2
  | none => .null

/-- The response format (content type) chosen by `api_response`. -/
inductive Fmt where
  | json
  | xml
  deriving DecidableEq, Repr

/-- A rendered Flask response: status code, chosen body format, the
payload (before serialization), and the optional `Location` header set by
the create handlers. -/
structure Response where
  status : Nat
  fmt : Fmt
  payload : Value
  location : Option String := none

/-- The error message (the `"error"` key) of a response's payload, when
the payload is an error envelope. -/
def Response.errMsg (r : Response) : Option String :=
  match r.payload with
  | .obj kvs =>
    match dictGet kvs "error" with
    | .str s => some s
    | _ => none
  | _ => none

/-- `_get_format()` from `app.py`:
`(request.args.get("format") or "json").strip().lower()`, then membership
in `{"json", "xml"}`; illegal values raise `BadRequest`. An absent or
empty parameter falls back to `"json"` through `or`. -/
def get_format (queryFormat : Option String) : Except Exc String :=
  let raw := match queryFormat with
    | none => "json"
    | some s => if s = "" then "json" else s
  let fmt := pyLower (pyStrip raw)
  if fmt = "json" ∨ fmt = "xml" then .ok fmt
  else .error (.badRequest "format must be 'json' or 'xml'")

/-- `api_response(payload, status, root=...)` from `app.py`: select the
format (which may raise `BadRequest`), then build the response body with
the matching content type.  The XML root name only affects the XML
serialization, which the claims never inspect below the format tag. -/
def api_response (req : Request) (payload : Value) (status : Nat := 200) :
    Except Exc Response :=
  match get_format req.queryFormat with
  | .error e => .error e
  | .ok fmt =>
    if fmt = "xml" then .ok { status := status, fmt := .xml, payload := payload }
    else .ok { status := status, fmt := .json, payload := payload }

/-- `error_response(message, status, details=...)` from `app.py`: the
uniform error envelope `{"error": message, "status": status}` (plus
`details` when truthy), routed through `api_response`. -/
def error_response (req : Request) (message : String) (status : Nat)
    (details : Option Value := none) : Except Exc Response :=
  let base : List (String × Value) := [("error", .str message), ("status", .int (status : Int))]
  let payload : List (String × Value) :=
    match details with
    | some d => if pyTruthy d then base ++ [("details", d)] else base
    | none => base
  api_response req (.obj payload) status

/-- `_format_suffix()` from `app.py`: re-append the caller's literal
`format` query parameter to `Location` when it is present and nonempty. -/
def format_suffix (req : Request) : String :=
  match req.queryFormat with
  | some f => if f = "" then "" else "?format=" ++ f
  | none => ""

/-! ## The auth gate (`require_jwt`) and the token service boundary -/

/-- The three outcomes of `jwt.decode` that `require_jwt` distinguishes. -/
inductive VerifyResult where
  | ok
  | expired
  | invalid
  deriving DecidableEq, Repr

/-- The application context `require_jwt` and `login` read: the token
verifier (the `jwt.decode` call with the configured secret), the
configured login credentials, and the token issuer (`_generate_token`,
abstracted since its output is an opaque signed string). -/
structure App where
  verify : String → VerifyResult
  apiUsername : String
  apiPassword : String
  issueToken : String → String

/-- `header.split(" ", 1)[1]` for a header that contains a space: the
suffix after the first space (always guarded by the `"Bearer "` prefix
check in `require_jwt`). -/
def splitOnceSpaceRest (s : String) : String :=
  ⟨(s.toList.dropWhile (fun c => c ≠ ' ')).drop 1⟩

/-- Python `s.startswith(p)`. -/
def pyStartsWith (s p : String) : Bool := p.toList.isPrefixOf s.toList

/-- The `Authorization` header string: `request.headers.get("Authorization", "")`. -/
def authHeaderStr (req : Request) : String := req.authHeader.getD ""

/-- The token `require_jwt` extracts: `header.split(" ", 1)[1].strip()`. -/
def bearerToken (req : Request) : String := pyStrip (splitOnceSpaceRest (authHeaderStr req))

/-! ## The database model -/

structure CategoryRow where
  category_id : Int
  category_name : String
  deriving DecidableEq, Repr

structure RegionRow where
  region_id : Int
  region_name : String
  deriving DecidableEq, Repr

structure CustomerRow where
  customer_id : Int
  first_name : String
  last_name : String
  email : String
  signup_date : PyDate
  deriving DecidableEq, Repr

structure ProductRow where
  product_id : Int
  product_name : String
  category_id : Int
  deriving DecidableEq, Repr

structure SaleRow where
  sale_id : Int
  product_id : Int
  sale_date : PyDate
  quantity : Int
  price : Rat
  customer_id : Int
  region_id : Int
  deriving DecidableEq, Repr

/-- A row of the read-only `sales_denorm` view (pre-joined sales with the
dimension names), listing the columns `search_sales` filters and orders
on; further view columns are carried opaquely in `rest`. -/
structure DenormRow where
  sale_id : Int
  product_name : String
  product_category : String
  region : String
  customer_id : Int
  sale_date : PyDate
  rest : List (String × Value) := []

/-- The external MySQL state: the five tables, the denormalized view, the
`AUTO_INCREMENT` counters the driver reports through `lastrowid`, and an
injectable storage failure (`failure = some msg` makes every statement
raise an exception whose `str` is `msg` — connection loss, constraint
violations of the externally-owned schema, etc.). -/
structure Db where
  categories : List CategoryRow := []
  regions : List RegionRow := []
  customers : List CustomerRow := []
  products : List ProductRow := []
  sales : List SaleRow := []
  denorm : List DenormRow := []
  nextCategoryId : Int := 1
  nextRegionId : Int := 1
  nextProductId : Int := 1
  failure : Option String := none

/-- MySQL's duplicate-key message for an explicit primary key. -/
def dupMsg (id : Int) : String :=
  "Duplicate entry '" ++ toString id ++ "' for key 'PRIMARY'"

/-- `INSERT INTO categories (category_name) VALUES (%s)` + commit:
auto-increment key, returns `lastrowid`. -/
def Db.insertCategory (db : Db) (name : String) : Except String (Db × Int) :=
  match db.failure with
  | some m => .error m
  | none =>
    let id := db.nextCategoryId
    .ok ({ db with categories := db.categories ++ [⟨id, name⟩],
                   nextCategoryId := id + 1 }, id)

/-- `INSERT INTO regions (region_name) VALUES (%s)` + commit. -/
def Db.insertRegion (db : Db) (name : String) : Except String (Db × Int) :=
  match db.failure with
  | some m => .error m
  | none =>
    let id := db.nextRegionId
    .ok ({ db with regions := db.regions ++ [⟨id, name⟩], nextRegionId := id + 1 }, id)

/-- `INSERT INTO products (product_name, category_id)` + commit. -/
def Db.insertProduct (db : Db) (name : String) (categoryId : Int) :
    Except String (Db × Int) :=
  match db.failure with
  | some m => .error m
  | none =>
    let id := db.nextProductId
    .ok ({ db with products := db.products ++ [⟨id, name, categoryId⟩],
                   nextProductId := id + 1 }, id)

/-- `INSERT INTO sales_fact (...)` + commit: the primary key `sale_id` is
supplied by the client, so inserting an existing id raises MySQL's
duplicate-entry error. -/
def Db.insertSale (db : Db) (row : SaleRow) : Except String Db :=
  match db.failure with
  | some m => .error m
  | none =>
    if db.sales.any (fun r => r.sale_id = row.sale_id) then .error (dupMsg row.sale_id)
    else .ok { db with sales := db.sales ++ [row] }

/-- `UPDATE sales_fact SET ... WHERE sale_id=%s` + commit: returns the new
state and `cursor.rowcount` (MySQLdb default: rows actually changed). -/
def Db.updateSale (db : Db) (id : Int) (f : SaleRow → SaleRow) :
    Except String (Db × Nat) :=
  match db.failure with
  | some m => .error m
  | none =>
    let updated := db.sales.map (fun r => if r.sale_id = id then f r else r)
    let changed := (db.sales.zip updated).countP (fun p => p.1 ≠ p.2)
    .ok ({ db with sales := updated }, changed)

/-- `UPDATE categories SET category_name=%s WHERE category_id=%s` + commit. -/
def Db.updateCategory (db : Db) (id : Int) (name : String) :
    Except String (Db × Nat) :=
  match db.failure with
  | some m => .error m
  | none =>
    let updated := db.categories.map
      (fun r => if r.category_id = id then { r with category_name := name } else r)
    let changed := (db.categories.zip updated).countP (fun p => p.1 ≠ p.2)
    .ok ({ db with categories := updated }, changed)

/-! ## The storage-error translator and the per-handler `try`/`except` -/

/-- Contiguous-occurrence test on character lists. -/
def pyInList (needle : List Char) : List Char → Bool
  | [] => needle.isEmpty
  | c :: t => needle.isPrefixOf (c :: t) || pyInList needle t

/-- Python `needle in hay` on strings. -/
def pyInStr (needle hay : String) : Bool := pyInList needle.toList hay.toList

/-- `_handle_db_error(exc)` from `app.py`: classify the exception's
string; a message containing `"Duplicate entry"` becomes the 409 conflict
envelope, anything else the generic 500. -/
def handle_db_error (req : Request) (msg : String) : Except Exc Response :=
  if pyInStr "Duplicate entry" msg then error_response req "Conflict (duplicate key)" 409
  else error_response req "Database error" 500

/-- The `except Exception as e: return _handle_db_error(e)` wrapper every
handler puts around its `try` block: exceptions raised while building the
response inside the `try` (including the `BadRequest` that `api_response`
raises on an illegal `format`) are fed to `_handle_db_error` as their
`str`. -/
def tryDb (req : Request) (r : Except Exc Response) : Except Exc Response :=
  match r with
  | .ok resp => .ok resp
  | .error e => handle_db_error req (excStr e)

/-- Same wrapper for the create handlers, which set the `Location` header
on the response after `api_response` succeeds, still inside the `try`. -/
def tryDbLoc (req : Request) (r : Except Exc Response) (loc : String) :
    Except Exc Response :=
  match r with
  | .ok resp => .ok { resp with location := some loc }
  | .error e => handle_db_error req (excStr e)

/-- A handler's outcome: the returned response or the escaped exception,
together with the database state afterwards (the state a committed
statement leaves behind even when the response then fails to encode). -/
abbrev HResult := Except Exc Response × Db

/-! ## Resource handlers -/

/-- `health()` from `app.py`. -/
def health (req : Request) (db : Db) : HResult :=
  (api_response req (.obj [("status", .str "ok")]) 200, db)

/-- `login()` from `app.py`: compare the body's credentials against the
configured ones, issue a token on success. -/
def login (app : App) (req : Request) (db : Db) : HResult :=
  let username := dictGet req.body "username"
  let password := dictGet req.body "password"
  if ¬(Value.beq username (.str app.apiUsername)) ∨
     ¬(Value.beq password (.str app.apiPassword)) then
    (error_response req "Invalid credentials" 401, db)
  else
    (api_response req (.obj
      [("access_token", .str (app.issueToken app.apiUsername)),
       ("token_type", .str "Bearer"),
       ("expires_in", .int 3600)]) 200, db)

/-- `require_jwt(fn)` from `app.py`: the wrapper applied to every
protected route. -/
def require_jwt (app : App) (fn : Request → Db → HResult) :
    Request → Db → HResult :=
  fun req db =>
    let header := authHeaderStr req
    if ¬pyStartsWith header "Bearer " then
      (error_response req "Missing or invalid Authorization header" 401, db)
    else
      match app.verify (pyStrip (splitOnceSpaceRest header)) with
      | .expired => (error_response req "Token expired" 401, db)
      | .invalid => (error_response req "Invalid token" 401, db)
      | .ok => fn req db

/-- The common body of the five delete handlers (`delete_category`,
`delete_region`, `delete_customer`, `delete_product`, `delete_sale` are
textually identical up to table, id column, message and payload key):
`DELETE ... WHERE id=%s`, commit, 404 when `rowcount == 0`, else
`{deleted: true, id}`. -/
def delete_from {ρ : Type} (req : Request) (db : Db) (rows : List ρ)
    (idOf : ρ → Int) (put : List ρ → Db) (id : Int)
    (notFoundMsg : String) (idKey : String) : HResult :=
  match db.failure with
  | some m => (handle_db_error req m, db)
  | none =>
    let kept := rows.filter (fun r => idOf r ≠ id)
    let db' := put kept
    if kept.length = rows.length then
      (tryDb req (error_response req notFoundMsg 404), db')
    else
      (tryDb req
        (api_response req (.obj [("deleted", .bool true), (idKey, .int id)]) 200), db')

/-- `list_categories()` from `app.py`. -/
def list_categories (req : Request) (db : Db) : HResult :=
  match db.failure with
  | some m => (handle_db_error req m, db)
  | none =>
    let rows := (List.insertionSort (fun a b => a.category_id ≤ b.category_id)
        db.categories).map
      (fun r => Value.obj
        [("category_id", .int r.category_id), ("category_name", .str r.category_name)])
    (tryDb req (api_response req (.obj [("items", .list rows)]) 200), db)

/-- `create_category()` from `app.py`: `(body.get("category_name") or
"").strip()` (an `AttributeError` on a truthy non-string), the required
check, then insert + commit inside the `try`. -/
def create_category (req : Request) (db : Db) : HResult :=
  match pyOr (dictGet req.body "category_name") (.str "") with
  | .str s0 =>
    let name := pyStrip s0
    if name = "" then (error_response req "category_name is required" 400, db)
    else
      match db.insertCategory name with
      | .error m => (handle_db_error req m, db)
      | .ok (db', newId) =>
        (tryDbLoc req
          (api_response req
            (.obj [("category_id", .int newId), ("category_name", .str name)]) 201)
          ("/api/categories/" ++ toString newId ++ format_suffix req), db')
  | _ => (.error (.pyError "AttributeError: strip"), db)

/-- `get_category(category_id)` from `app.py`. -/
def get_category (id : Int) (req : Request) (db : Db) : HResult :=
  match db.failure with
  | some m => (handle_db_error req m, db)
  | none =>
    match db.categories.find? (fun r => r.category_id = id) with
    | none => (tryDb req (error_response req "Category not found" 404), db)
    | some r =>
      (tryDb req (api_response req
        (.obj [("category_id", .int r.category_id),
               ("category_name", .str r.category_name)]) 200), db)

/-- `update_category(category_id)` from `app.py`. -/
def update_category (id : Int) (req : Request) (db : Db) : HResult :=
  match pyOr (dictGet req.body "category_name") (.str "") with
  | .str s0 =>
    let name := pyStrip s0
    if name = "" then (error_response req "category_name is required" 400, db)
    else
      match db.updateCategory id name with
      | .error m => (handle_db_error req m, db)
      | .ok (db', changed) =>
        if changed = 0 then (tryDb req (error_response req "Category not found" 404), db')
        else
          (tryDb req (api_response req
            (.obj [("category_id", .int id), ("category_name", .str name)]) 200), db')
  | _ => (.error (.pyError "AttributeError: strip"), db)

/-- `delete_category(category_id)` from `app.py`. -/
def delete_category (id : Int) (req : Request) (db : Db) : HResult :=
  delete_from req db db.categories (fun r => r.category_id)
    (fun l => { db with categories := l }) id "Category not found" "category_id"

/-- `delete_region(region_id)` from `app.py`. -/
def delete_region (id : Int) (req : Request) (db : Db) : HResult :=
  delete_from req db db.regions (fun r => r.region_id)
    (fun l => { db with regions := l }) id "Region not found" "region_id"

/-- `delete_customer(customer_id)` from `app.py`. -/
def delete_customer (id : Int) (req : Request) (db : Db) : HResult :=
  delete_from req db db.customers (fun r => r.customer_id)
    (fun l => { db with customers := l }) id "Customer not found" "customer_id"

/-- `create_product()` from `app.py`: note the source parses
`category_id` (which may raise) before the `product_name` required
check. -/
def create_product (req : Request) (db : Db) : HResult :=
  match pyOr (dictGet req.body "product_name") (.str "") with
  | .str s0 =>
    let name := pyStrip s0
    match parse_int (dictGet req.body "category_id") "category_id" (some 1) with
    | .error e => (.error e, db)
    | .ok category_id =>
      if name = "" then (error_response req "product_name is required" 400, db)
      else
        match db.insertProduct name category_id with
        | .error m => (handle_db_error req m, db)
        | .ok (db', newId) =>
          (tryDbLoc req
            (api_response req
              (.obj [("product_id", .int newId), ("product_name", .str name),
                     ("category_id", .int category_id)]) 201)
            ("/api/products/" ++ toString newId ++ format_suffix req), db')
  | _ => (.error (.pyError "AttributeError: strip"), db)

/-- `delete_product(product_id)` from `app.py`. -/
def delete_product (id : Int) (req : Request) (db : Db) : HResult :=
  delete_from req db db.products (fun r => r.product_id)
    (fun l => { db with products := l }) id "Product not found" "product_id"

/-- The JSON representation of a `sales_fact` row as the handlers build it
(`sale_date` stringified, `price` through `float`). -/
def saleRowValue (r : SaleRow) : Value :=
  .obj [("sale_id", .int r.sale_id), ("product_id", .int r.product_id),
        ("sale_date", .str r.sale_date.toIso), ("quantity", .int r.quantity),
        ("price", .float r.price), ("customer_id", .int r.customer_id),
        ("region_id", .int r.region_id)]

/-- `list_sales()` from `app.py`. -/
def list_sales (req : Request) (db : Db) : HResult :=
  match db.failure with
  | some m => (handle_db_error req m, db)
  | none =>
    let rows := (List.insertionSort (fun a b => a.sale_id ≤ b.sale_id) db.sales).map
      saleRowValue
    (tryDb req (api_response req (.obj [("items", .list rows)]) 200), db)

/-- The validation prefix of `create_sale()`: the seven `_parse_*` calls
in source order, all before the `try` block. -/
def createSaleValidate (body : List (String × Value)) : Except Exc SaleRow := do
  let sale_id ← parse_int (dictGet body "sale_id") "sale_id" (some 1)
  let product_id ← parse_int (dictGet body "product_id") "product_id" (some 1)
  let sale_date ← parse_date (dictGet body "sale_date") "sale_date"
  let quantity ← parse_int (dictGet body "quantity") "quantity" (some 1)
  let price ← parse_decimal (dictGet body "price") "price"
  let customer_id ← parse_int (dictGet body "customer_id") "customer_id" (some 1)
  let region_id ← parse_int (dictGet body "region_id") "region_id" (some 1)
  pure ⟨sale_id, product_id, sale_date, quantity, price, customer_id, region_id⟩

/-- `create_sale()` from `app.py`. -/
def create_sale (req : Request) (db : Db) : HResult :=
  match createSaleValidate req.body with
  | .error e => (.error e, db)
  | .ok row =>
    match db.insertSale row with
    | .error m => (handle_db_error req m, db)
    | .ok db' =>
      (tryDbLoc req (api_response req (saleRowValue row) 201)
        ("/api/sales/" ++ toString row.sale_id ++ format_suffix req), db')

/-- `get_sale(sale_id)` from `app.py`. -/
def get_sale (id : Int) (req : Request) (db : Db) : HResult :=
  match db.failure with
  | some m => (handle_db_error req m, db)
  | none =>
    match db.sales.find? (fun r => r.sale_id = id) with
    | none => (tryDb req (error_response req "Sale not found" 404), db)
    | some r => (tryDb req (api_response req (saleRowValue r) 200), db)

/-- The validation prefix of `update_sale()` (six fields; `sale_id` comes
from the route). -/
def updateSaleValidate (body : List (String × Value)) :
    Except Exc (Int × PyDate × Int × Rat × Int × Int) := do
  let product_id ← parse_int (dictGet body "product_id") "product_id" (some 1)
  let sale_date ← parse_date (dictGet body "sale_date") "sale_date"
  let quantity ← parse_int (dictGet body "quantity") "quantity" (some 1)
  let price ← parse_decimal (dictGet body "price") "price"
  let customer_id ← parse_int (dictGet body "customer_id") "customer_id" (some 1)
  let region_id ← parse_int (dictGet body "region_id") "region_id" (some 1)
  pure (product_id, sale_date, quantity, price, customer_id, region_id)

/-- `update_sale(sale_id)` from `app.py`. -/
def update_sale (id : Int) (req : Request) (db : Db) : HResult :=
  match updateSaleValidate req.body with
  | .error e => (.error e, db)
  | .ok (product_id, sale_date, quantity, price, customer_id, region_id) =>
    match db.updateSale id (fun r =>
        { r with product_id := product_id, sale_date := sale_date,
                 quantity := quantity, price := price,
                 customer_id := customer_id, region_id := region_id }) with
    | .error m => (handle_db_error req m, db)
    | .ok (db', changed) =>
      if changed = 0 then (tryDb req (error_response req "Sale not found" 404), db')
      else
        (tryDb req (api_response req
          (saleRowValue ⟨id, product_id, sale_date, quantity, price,
                         customer_id, region_id⟩) 200), db')

/-- `delete_sale(sale_id)` from `app.py`. -/
def delete_sale (id : Int) (req : Request) (db : Db) : HResult :=
  delete_from req db db.sales (fun r => r.sale_id)
    (fun l => { db with sales := l }) id "Sale not found" "sale_id"

/-! ## Sales search -/

/-- One conjunct of the `WHERE` clause `search_sales` assembles. -/
inductive SaleCond where
  | likeProduct (s : String)
  | likeCategory (s : String)
  | likeRegion (s : String)
  | custEq (n : Int)
  | fromDate (d : PyDate)
  | toDate (d : PyDate)

/-- MySQL `column LIKE '%f%'` under the default case-insensitive
collation, for a filter string without LIKE metacharacters:
case-insensitive substring containment. -/
def likeCI (filter column : String) : Bool :=
  pyInStr (pyLower filter) (pyLower column)

/-- Evaluation of one assembled conjunct on a view row. -/
def condHolds (r : DenormRow) : SaleCond → Bool
  | .likeProduct s => likeCI s r.product_name
  | .likeCategory s => likeCI s r.product_category
  | .likeRegion s => likeCI s r.region
  | .custEq n => r.customer_id = n
  | .fromDate d => d.le r.sale_date
  | .toDate d => r.sale_date.le d

/-- The three `LIKE` conjuncts of `search_sales`, in source order; a
filter that is absent or empty (falsy) is omitted. -/
def strFilters (req : Request) : List SaleCond :=
  (match req.qProductName with
   | some s => if s = "" then [] else [.likeProduct s]
   | none => []) ++
  (match req.qCategoryName with
   | some s => if s = "" then [] else [.likeCategory s]
   | none => []) ++
  (match req.qRegionName with
   | some s => if s = "" then [] else [.likeRegion s]
   | none => [])

/-- The `customer_id = %s` conjunct: omitted when absent or empty,
otherwise `_parse_int(customer_id, "customer_id", minimum=1)` (which may
raise). -/
def custFilter (req : Request) : Except Exc (List SaleCond) :=
  match req.qCustomerId with
  | some s =>
    if s = "" then pure [] else do
      let n ← parse_int (.str s) "customer_id" (some 1)
      pure [SaleCond.custEq n]
  | none => pure []

/-- The `sale_date >= %s` conjunct. -/
def fromFilter (req : Request) : Except Exc (List SaleCond) :=
  match req.qDateFrom with
  | some s =>
    if s = "" then pure [] else do
      let d ← parse_date (.str s) "date_from"
      pure [SaleCond.fromDate d]
  | none => pure []

/-- The `sale_date <= %s` conjunct. -/
def toFilter (req : Request) : Except Exc (List SaleCond) :=
  match req.qDateTo with
  | some s =>
    if s = "" then pure [] else do
      let d ← parse_date (.str s) "date_to"
      pure [SaleCond.toDate d]
  | none => pure []

/-- The full condition list `search_sales` assembles; parsing
`customer_id`, `date_from`, `date_to` can raise `BadRequest`, in source
order. -/
def buildSaleFilters (req : Request) : Except Exc (List SaleCond) := do
  let cust ← custFilter req
  let dFrom ← fromFilter req
  let dTo ← toFilter req
  pure (strFilters req ++ cust ++ dFrom ++ dTo)

/-- `SELECT * FROM sales_denorm [WHERE ...] ORDER BY sale_id`: the rows
satisfying every conjunct, ordered by sale id ascending. -/
def searchRows (conds : List SaleCond) (view : List DenormRow) : List DenormRow :=
  List.insertionSort (fun a b => a.sale_id ≤ b.sale_id)
    (view.filter (fun r => conds.all (fun c => condHolds r c)))

/-- The JSON representation of a view row (`sale_date` stringified; the
remaining view columns pass through unmodified). -/
def denormRowValue (r : DenormRow) : Value :=
  .obj ([("sale_id", .int r.sale_id), ("product_name", .str r.product_name),
         ("product_category", .str r.product_category), ("region", .str r.region),
         ("customer_id", .int r.customer_id), ("sale_date", .str r.sale_date.toIso)]
        ++ r.rest)

/-- `search_sales()` from `app.py`: assemble the filters (outside the
`try`; a parse failure raises), run the query, return items plus count. -/
def search_sales (req : Request) (db : Db) : HResult :=
  match buildSaleFilters req with
  | .error e => (.error e, db)
  | .ok conds =>
    match db.failure with
    | some m => (handle_db_error req m, db)
    | none =>
      let rows := searchRows conds db.denorm
      (tryDb req (api_response req
        (.obj [("items", .list (rows.map denormRowValue)),
               ("count", .int (rows.length : Int))]) 200), db)

/-! ## The route table and the Flask dispatch layer -/

/-- The embedded routes of the application (the remaining region,
customer and product routes are textually identical to their category
counterparts). -/
inductive Route where
  | health
  | login
  | listCategories
  | createCategory
  | getCategory (id : Int)
  | updateCategory (id : Int)
  | deleteCategory (id : Int)
  | deleteRegion (id : Int)
  | deleteCustomer (id : Int)
  | createProduct
  | deleteProduct (id : Int)
  | listSales
  | createSale
  | getSale (id : Int)
  | updateSale (id : Int)
  | deleteSale (id : Int)
  | searchSales

/-- Every route except `/health` and `/auth/login` is wrapped in
`@require_jwt`. -/
def isProtected : Route → Bool
  | .health => false
  | .login => false
  | _ => true

/-- The handler registered for each route, with the auth gate applied
exactly as the decorators do. -/
def routeHandler (app : App) : Route → Request → Db → HResult
  | .health => health
  | .login => login app
  | .listCategories => require_jwt app list_categories
  | .createCategory => require_jwt app create_category
  | .getCategory id => require_jwt app (get_category id)
  | .updateCategory id => require_jwt app (update_category id)
  | .deleteCategory id => require_jwt app (delete_category id)
  | .deleteRegion id => require_jwt app (delete_region id)
  | .deleteCustomer id => require_jwt app (delete_customer id)
  | .createProduct => require_jwt app create_product
  | .deleteProduct id => require_jwt app (delete_product id)
  | .listSales => require_jwt app list_sales
  | .createSale => require_jwt app create_sale
  | .getSale id => require_jwt app (get_sale id)
  | .updateSale id => require_jwt app (update_sale id)
  | .deleteSale id => require_jwt app (delete_sale id)
  | .searchSales => require_jwt app search_sales

/-- What the HTTP client ultimately observes: a rendered response, or the
WSGI server's plain 500 page after an exception escaped the application
(including its error handlers). -/
inductive Outcome where
  | resp (r : Response)
  | wsgiError

/-- The observed HTTP status code. -/
def Outcome.statusCode : Outcome → Nat
  | .resp r => r.status
  | .wsgiError => 500

/-- The registered Flask error handlers (`@app.errorhandler(BadRequest)`,
`@app.errorhandler(NotFound)`, `@app.errorhandler(Exception)`), each of
which renders through `error_response` and can therefore itself raise on
an illegal `format`. -/
def app_error_handler (req : Request) : Exc → Except Exc Response
  | .badRequest msg =>
    error_response req (if msg = "" then "Bad request" else msg) 400
  | .notFound => error_response req "Not found" 404
  | .dbError _ => error_response req "Internal server error" 500
  | .pyError _ => error_response req "Internal server error" 500

/-- The request lifecycle: run the route's handler; if it raises, run the
matching error handler; if that raises too, Flask's `handle_exception`
wraps an `InternalServerError` and runs the registered `Exception`
handler; if that raises as well the exception escapes the app and the
WSGI server produces its plain 500. -/
def flaskDispatch (app : App) (rt : Route) (req : Request) (db : Db) :
    Outcome × Db :=
  match routeHandler app rt req db with
  | (.ok resp, db') => (.resp resp, db')
  | (.error e, db') =>
    match app_error_handler req e with
    | .ok resp => (.resp resp, db')
    | .error _ =>
      match error_response req "Internal server error" 500 with
      | .ok resp => (.resp resp, db')
      | .error _ => (.wsgiError, db')

/-! ## Helper predicates for the theorems -/

/-- Whether an embedded computation succeeded. -/
def exOk {α : Type} : Except Exc α → Bool
  | .ok _ => true
  | .error _ => false

/-- The request's `format` parameter is legal (absent, empty, or
normalizing to `json`/`xml`), so responses can actually be encoded. -/
def formatLegal (req : Request) : Bool := exOk (get_format req.queryFormat)

/-- The request does not carry a valid bearer token: header absent or not
starting with `"Bearer "`, or the verifier rejecting the token. -/
def badAuth (app : App) (req : Request) : Bool :=
  ¬pyStartsWith (authHeaderStr req) "Bearer " ||
    (match app.verify (bearerToken req) with
     | .ok => false
     | .expired => true
     | .invalid => true)

/-- The embedded write operations (the cited create/update/delete
handlers). -/
inductive WriteOp where
  | createCategory
  | updateCategory (id : Int)
  | deleteCategory (id : Int)
  | createProduct
  | deleteProduct (id : Int)
  | deleteRegion (id : Int)
  | deleteCustomer (id : Int)
  | createSale
  | updateSale (id : Int)
  | deleteSale (id : Int)

/-- The handler a write operation runs (post-auth). -/
def writeHandler : WriteOp → Request → Db → HResult
  | .createCategory => create_category
  | .updateCategory id => update_category id
  | .deleteCategory id => delete_category id
  | .createProduct => create_product
  | .deleteProduct id => delete_product id
  | .deleteRegion id => delete_region id
  | .deleteCustomer id => delete_customer id
  | .createSale => create_sale
  | .updateSale id => update_sale id
  | .deleteSale id => delete_sale id

/-- The request-body validation of a write operation passes, so the
handler reaches its storage statement. -/
def writeValidates : WriteOp → Request → Bool
  | .createCategory => fun req =>
    match pyOr (dictGet req.body "category_name") (.str "") with
    | .str s => pyStrip s ≠ ""
    | _ => false
  | .updateCategory _ => fun req =>
    match pyOr (dictGet req.body "category_name") (.str "") with
    | .str s => pyStrip s ≠ ""
    | _ => false
  | .createProduct => fun req =>
    (match pyOr (dictGet req.body "product_name") (.str "") with
     | .str s => pyStrip s ≠ ""
     | _ => false) &&
    exOk (parse_int (dictGet req.body "category_id") "category_id" (some 1))
  | .deleteProduct _ => fun _ => true
  | .deleteCategory _ => fun _ => true
  | .deleteRegion _ => fun _ => true
  | .deleteCustomer _ => fun _ => true
  | .createSale => fun req => exOk (createSaleValidate req.body)
  | .updateSale _ => fun req => exOk (updateSaleValidate req.body)
  | .deleteSale _ => fun _ => true

/-! ## Rendering lemmas -/

/-- The body format the encoder uses for a request whose `format`
parameter is legal. -/
def reqFmt (req : Request) : Option Fmt :=
  match get_format req.queryFormat with
  | .ok f => some (if f = "xml" then .xml else .json)
  | .error _ => none

lemma api_response_ok (req : Request) (payload : Value) (status : Nat)
    (hfmt : formatLegal req = true) :
    ∃ fm, reqFmt req = some fm ∧
      api_response req payload status = .ok ⟨status, fm, payload, none⟩ := by
  unfold reqFmt api_response
  cases h : get_format req.queryFormat with
  | error e =>
    exfalso
    unfold formatLegal exOk at hfmt
    rw [h] at hfmt
    exact Bool.noConfusion hfmt
  | ok f =>
    by_cases hx : f = "xml"
    · exact ⟨.xml, by simp [hx], by simp [hx]⟩
    · exact ⟨.json, by simp [hx], by simp [hx]⟩

lemma error_response_ok (req : Request) (msg : String) (status : Nat)
    (hfmt : formatLegal req = true) :
    ∃ fm, reqFmt req = some fm ∧
      error_response req msg status =
        .ok ⟨status, fm,
             .obj [("error", .str msg), ("status", .int (status : Int))], none⟩ := by
  unfold error_response
  exact api_response_ok req _ status hfmt

lemma errMsg_error_payload (msg : String) (n : Int) (status : Nat) (fm : Fmt)
    (loc : Option String) :
    Response.errMsg ⟨status, fm, .obj [("error", .str msg), ("status", .int n)], loc⟩ =
      some msg := rfl

/-! ## C9 — format parameter normalization -/

/-- **C9.** For every request, the `format` query parameter is stripped
of surrounding whitespace and lowercased before being checked against
`{json, xml}`; in particular `"XML"`, `"Json"` and `" json "` are
accepted as legal formats rather than rejected. -/
theorem get_format_normalizes :
    (∀ s : String, s ≠ "" →
      get_format (some s) =
        (if pyLower (pyStrip s) = "json" ∨ pyLower (pyStrip s) = "xml"
         then .ok (pyLower (pyStrip s))
         else .error (.badRequest "format must be 'json' or 'xml'"))) ∧
    get_format (some "XML") = .ok "xml" ∧
    get_format (some "Json") = .ok "json" ∧
    get_format (some " json ") = .ok "json" ∧
    get_format none = .ok "json" := by
  refine ⟨?_, rfl, rfl, rfl, rfl⟩
  intro s hs
  unfold get_format
  simp [hs]

/-- **C9 witness.** -/
theorem get_format_normalizes_witness :
    get_format (some "xMl") =
      (if pyLower (pyStrip "xMl") = "json" ∨ pyLower (pyStrip "xMl") = "xml"
       then .ok (pyLower (pyStrip "xMl"))
       else .error (.badRequest "format must be 'json' or 'xml'")) :=
  get_format_normalizes.1 "xMl" (by decide)

/-! ## C10 — the integer parser truncates non-integral numbers -/

/-- **C10.** A numeric (float) input that is not a whole number is
accepted by `_parse_int` and truncated toward zero whenever the truncated
value meets the minimum; e.g. a `quantity` of `1.9` is accepted as `1`. -/
theorem parse_int_truncates_floats :
    (∀ (q : Rat) (f : String) (m : Int), q.den ≠ 1 → m ≤ ratTrunc q →
        parse_int (.float q) f (some m) = .ok (ratTrunc q)) ∧
    parse_int (.float (mkRat 19 10)) "quantity" (some 1) = .ok 1 ∧
    ratTrunc (mkRat 19 10) = 1 ∧
    ratTrunc (-(mkRat 19 10)) = -1 := by
  refine ⟨?_, rfl, rfl, rfl⟩
  intro q f m _ hge
  unfold parse_int pyIntOfValue
  simp [Int.not_lt.mpr hge]

/-- **C10 witness.** -/
theorem parse_int_truncates_floats_witness :
    (mkRat 19 10).den ≠ 1 ∧ (1 : Int) ≤ ratTrunc (mkRat 19 10) ∧
    parse_int (.float (mkRat 19 10)) "qty" (some 1) = .ok (ratTrunc (mkRat 19 10)) :=
  ⟨by decide, by decide,
   parse_int_truncates_floats.1 (mkRat 19 10) "qty" 1 (by decide) (by decide)⟩

/-! ## C5 — the date parser -/

lemma parse_date_str (s : String) (f : String) :
    parse_date (.str s) f =
      match dateFromIsoformat s with
      | some d => .ok d
      | none => .error (.badRequest (f ++ " must be a date string (YYYY-MM-DD)")) := by
  by_cases hs : s = ""
  · subst hs; rfl
  · simp only [parse_date, if_neg hs]

/-- **C5 counterexample.** On the Pythons this repository runs on (it
pins no version; every currently supported interpreter is ≥ 3.11),
`date.fromisoformat` — and hence `_parse_date` — accepts ISO 8601 shapes
other than `YYYY-MM-DD`: the eight-character basic form `"20230101"`
parses to 2023-01-01 although it is not a dashed ten-character
`YYYY-MM-DD` string, and the ISO week date `"2023-W01-1"` parses to
2023-01-02, refuting "fails on any other shape". -/
theorem parse_date_yyyymmdd_counterexample :
    parse_date (.str "20230101") "signup_date" = .ok ⟨2023, 1, 1⟩ ∧
    ("20230101" : String).length = 8 ∧
    ¬("20230101" : String).length = 10 ∧
    parse_date (.str "2023-W01-1") "signup_date" = .ok ⟨2023, 1, 2⟩ :=
  ⟨rfl, rfl, by decide,
   by rw [parse_date_str,
     show dateFromIsoformat "2023-W01-1" = some ⟨2023, 1, 2⟩ from by decide]⟩

/-- **C5 (amended).** `_parse_date` succeeds exactly on the strings
`date.fromisoformat` accepts (on the repository's supported runtimes,
Python ≥ 3.11: valid `YYYY-MM-DD`, the basic form `YYYYMMDD`, and ISO
week dates), returning the parsed date; on every other shape — including
null, the empty string, non-strings, and `"2023/01/01"` — it fails with
a bad-input error naming the field; `"2023-01-01"` is accepted. -/
theorem parse_date_accepts_iso8601 :
    (∀ (v : Value) (f : String),
      ((∃ d, parse_date v f = .ok d) ↔
        (∃ s, v = .str s ∧ (dateFromIsoformat s).isSome = true)) ∧
      (∀ e, parse_date v f = .error e →
        e = .badRequest (f ++ " must be a date string (YYYY-MM-DD)")) ∧
      (∀ s d, v = .str s → parse_date v f = .ok d → dateFromIsoformat s = some d)) ∧
    parse_date (.str "2023-01-01") "signup_date" = .ok ⟨2023, 1, 1⟩ ∧
    parse_date (.str "2024-02-29") "signup_date" = .ok ⟨2024, 2, 29⟩ ∧
    exOk (parse_date (.str "2023/01/01") "signup_date") = false ∧
    exOk (parse_date (.str "2023-13-01") "signup_date") = false ∧
    exOk (parse_date (.str "2023-02-29") "signup_date") = false ∧
    exOk (parse_date .null "signup_date") = false ∧
    exOk (parse_date (.str "") "signup_date") = false ∧
    exOk (parse_date (.int 5) "signup_date") = false := by
  refine ⟨?_, rfl, rfl, rfl, rfl, rfl, rfl, rfl, rfl⟩
  intro v f
  refine ⟨⟨?_, ?_⟩, ?_, ?_⟩
  · rintro ⟨d, hd⟩
    cases v with
    | str s =>
      refine ⟨s, rfl, ?_⟩
      rw [parse_date_str] at hd
      cases h : dateFromIsoformat s with
      | none => rw [h] at hd; cases hd
      | some d' => simp
    | null => cases hd
    | bool b => cases hd
    | int n => cases hd
    | float q => cases hd
    | list xs => cases hd
    | obj kvs => cases hd
  · rintro ⟨s, rfl, hsome⟩
    rw [parse_date_str]
    cases h : dateFromIsoformat s with
    | none => rw [h] at hsome; cases hsome
    | some d => exact ⟨d, rfl⟩
  · intro e he
    cases v with
    | str s =>
      rw [parse_date_str] at he
      cases h : dateFromIsoformat s with
      | none => rw [h] at he; cases he; rfl
      | some d => rw [h] at he; cases he
    | null => cases he; rfl
    | bool b => cases he; rfl
    | int n => cases he; rfl
    | float q => cases he; rfl
    | list xs => cases he; rfl
    | obj kvs => cases he; rfl
  · rintro s d rfl hd
    rw [parse_date_str] at hd
    cases h : dateFromIsoformat s with
    | none => rw [h] at hd; cases hd
    | some d' => rw [h] at hd; cases hd; rfl

/-- **C5 witness.** -/
theorem parse_date_accepts_iso8601_witness :
    ((∃ d, parse_date (.str "2024-02-29") "sale_date" = .ok d) ↔
      (∃ s, (Value.str "2024-02-29") = .str s ∧ (dateFromIsoformat s).isSome = true)) ∧
    dateFromIsoformat "2024-02-29" = some ⟨2024, 2, 29⟩ :=
  ⟨(parse_date_accepts_iso8601.1 (.str "2024-02-29") "sale_date").1,
   (parse_date_accepts_iso8601.1 (.str "2024-02-29") "sale_date").2.2 "2024-02-29"
     ⟨2024, 2, 29⟩ rfl rfl⟩

/-! ## C6 — the integer parser's minimum and the create-handler bounds -/

/-- A syntactically valid sale body except `quantity = 0`. -/
def saleReqQty0 : Request :=
  { body := [("sale_id", .int 1), ("product_id", .int 2),
             ("sale_date", .str "2023-02-01"), ("quantity", .int 0),
             ("price", .float 5), ("customer_id", .int 3), ("region_id", .int 4)] }

/-- A sale body with `sale_id = 0`. -/
def saleReqSaleId0 : Request :=
  { body := [("sale_id", .int 0), ("product_id", .int 2),
             ("sale_date", .str "2023-02-01"), ("quantity", .int 1),
             ("price", .float 5), ("customer_id", .int 3), ("region_id", .int 4)] }

/-- A sale body with `product_id = -2`. -/
def saleReqProdNeg : Request :=
  { body := [("sale_id", .int 1), ("product_id", .int (-2)),
             ("sale_date", .str "2023-02-01"), ("quantity", .int 1),
             ("price", .float 5), ("customer_id", .int 3), ("region_id", .int 4)] }

/-- A sale body with `customer_id = 0`. -/
def saleReqCust0 : Request :=
  { body := [("sale_id", .int 1), ("product_id", .int 2),
             ("sale_date", .str "2023-02-01"), ("quantity", .int 1),
             ("price", .float 5), ("customer_id", .int 0), ("region_id", .int 4)] }

/-- A sale body with `region_id = -1`. -/
def saleReqRegionNeg : Request :=
  { body := [("sale_id", .int 1), ("product_id", .int 2),
             ("sale_date", .str "2023-02-01"), ("quantity", .int 1),
             ("price", .float 5), ("customer_id", .int 3), ("region_id", .int (-1))] }

/-- A product body with `category_id = 0`. -/
def prodReqCat0 : Request :=
  { body := [("product_name", .str "Widget"), ("category_id", .int 0)] }

/-- **C6.** `_parse_int` returns a whole number exactly when the value
converts to one that meets the minimum, and otherwise fails with a
bad-input error naming the field; in the sales create handler a
`quantity` of 0 is rejected (minimum 1) and `sale_id`, `product_id`,
`customer_id`, `region_id` (and `category_id` in products) of 0 or
negative are rejected. -/
theorem parse_int_minimums :
    (∀ (v : Value) (f : String) (m n : Int),
        parse_int v f (some m) = .ok n ↔ (pyIntOfValue v = some n ∧ m ≤ n)) ∧
    (∀ (v : Value) (f : String) (n : Int),
        parse_int v f none = .ok n ↔ pyIntOfValue v = some n) ∧
    (∀ (v : Value) (f : String) (m : Option Int), pyIntOfValue v = none →
        parse_int v f m = .error (.badRequest (f ++ " must be an integer"))) ∧
    (∀ (v : Value) (f : String) (m n : Int), pyIntOfValue v = some n → n < m →
        parse_int v f (some m) =
          .error (.badRequest (f ++ " must be >= " ++ toString m))) ∧
    (∀ (k : Int) (f : String), k ≤ 0 →
        parse_int (.int k) f (some 1) =
          .error (.badRequest (f ++ " must be >= " ++ toString (1 : Int)))) ∧
    (∀ db, create_sale saleReqQty0 db = (.error (.badRequest "quantity must be >= 1"), db)) ∧
    (∀ db, create_sale saleReqSaleId0 db = (.error (.badRequest "sale_id must be >= 1"), db)) ∧
    (∀ db, create_sale saleReqProdNeg db =
      (.error (.badRequest "product_id must be >= 1"), db)) ∧
    (∀ db, create_sale saleReqCust0 db =
      (.error (.badRequest "customer_id must be >= 1"), db)) ∧
    (∀ db, create_sale saleReqRegionNeg db =
      (.error (.badRequest "region_id must be >= 1"), db)) ∧
    (∀ db, create_product prodReqCat0 db =
      (.error (.badRequest "category_id must be >= 1"), db)) := by
  refine ⟨?_, ?_, ?_, ?_, ?_, fun db => rfl, fun db => rfl, fun db => rfl, fun db => rfl,
    fun db => rfl, fun db => rfl⟩
  · intro v f m n
    unfold parse_int
    cases h : pyIntOfValue v with
    | none => simp
    | some k =>
      by_cases hk : k < m
      · simp only [if_pos hk]
        constructor
        · rintro ⟨⟩
        · rintro ⟨hkn, hmn⟩
          cases hkn
          omega
      · simp only [if_neg hk]
        constructor
        · rintro ⟨⟩
          exact ⟨rfl, by omega⟩
        · rintro ⟨hkn, _⟩
          cases hkn
          rfl
  · intro v f n
    unfold parse_int
    cases h : pyIntOfValue v with
    | none => simp
    | some k =>
      constructor
      · rintro ⟨⟩
        rfl
      · rintro ⟨⟩
        rfl
  · intro v f m h
    unfold parse_int
    rw [h]
  · intro v f m n h hlt
    unfold parse_int
    rw [h]
    simp only [if_pos hlt]
  · intro k f hk
    unfold parse_int pyIntOfValue
    simp only [if_pos (by omega : k < 1)]

/-- **C6 witness.** -/
theorem parse_int_minimums_witness :
    parse_int (.int 7) "quantity" (some 1) = .ok 7 ↔
      (pyIntOfValue (.int 7) = some 7 ∧ (1 : Int) ≤ 7) :=
  parse_int_minimums.1 (.int 7) "quantity" 1 7

/-! ## C3 — the auth gate -/

/-- **C3.** The auth gate returns the 401 "Missing or invalid
Authorization header" envelope without consulting the token verifier
whenever the `Authorization` header does not start with the literal
`"Bearer "` (the equation holds for **every** verifier); on an expired
token it returns 401 "Token expired"; on any other invalid token 401
"Invalid token"; on success control passes unchanged to the wrapped
handler (the result is literally `fn req db`, so no token payload is
injected).  Under a legal `format`, the 401 envelopes render with status
401 and the stated message. -/
theorem require_jwt_gate (app : App) (fn : Request → Db → HResult) (req : Request)
    (db : Db) :
    (pyStartsWith (authHeaderStr req) "Bearer " = false →
      ∀ (v : String → VerifyResult) (u p : String) (t : String → String),
        require_jwt ⟨v, u, p, t⟩ fn req db =
          (error_response req "Missing or invalid Authorization header" 401, db)) ∧
    (pyStartsWith (authHeaderStr req) "Bearer " = true →
      app.verify (bearerToken req) = .expired →
        require_jwt app fn req db = (error_response req "Token expired" 401, db)) ∧
    (pyStartsWith (authHeaderStr req) "Bearer " = true →
      app.verify (bearerToken req) = .invalid →
        require_jwt app fn req db = (error_response req "Invalid token" 401, db)) ∧
    (pyStartsWith (authHeaderStr req) "Bearer " = true →
      app.verify (bearerToken req) = .ok →
        require_jwt app fn req db = fn req db) ∧
    (formatLegal req = true → ∀ (msg : String),
      ∃ r, error_response req msg 401 = .ok r ∧ r.status = 401 ∧
        r.errMsg = some msg) := by
  refine ⟨?_, ?_, ?_, ?_, ?_⟩
  · intro h v u p t
    unfold require_jwt
    simp [h]
  · intro h hv
    unfold require_jwt
    unfold bearerToken at hv
    simp [h, hv]
  · intro h hv
    unfold require_jwt
    unfold bearerToken at hv
    simp [h, hv]
  · intro h hv
    unfold require_jwt
    unfold bearerToken at hv
    simp [h, hv]
  · intro hfmt msg
    obtain ⟨fm, _, hr⟩ := error_response_ok req msg 401 hfmt
    exact ⟨_, hr, rfl, rfl⟩

/-- A context whose verifier reports every token expired. -/
def appExpired : App := ⟨fun _ => .expired, "u", "p", fun s => s⟩

/-- A context whose verifier accepts every token. -/
def appValid : App := ⟨fun _ => .ok, "u", "p", fun s => s⟩

/-- A request carrying a well-formed bearer header. -/
def reqBearer : Request := { authHeader := some "Bearer tok" }

/-- **C3 witness.** -/
theorem require_jwt_gate_witness :
    require_jwt ⟨fun _ => .invalid, "u", "p", fun s => s⟩ list_categories {} {} =
      (error_response {} "Missing or invalid Authorization header" 401, {}) ∧
    require_jwt appExpired list_categories reqBearer {} =
      (error_response reqBearer "Token expired" 401, {}) ∧
    require_jwt appValid list_categories reqBearer {} = list_categories reqBearer {} ∧
    (∃ r, error_response reqBearer "Token expired" 401 = .ok r ∧ r.status = 401 ∧
      r.errMsg = some "Token expired") :=
  ⟨(require_jwt_gate appExpired list_categories {} {}).1 rfl
      (fun _ => .invalid) "u" "p" (fun s => s),
   (require_jwt_gate appExpired list_categories reqBearer {}).2.1 (by decide) rfl,
   (require_jwt_gate appValid list_categories reqBearer {}).2.2.2.1 (by decide) rfl,
   (require_jwt_gate appValid list_categories reqBearer {}).2.2.2.2 (by decide) "Token expired"⟩

/-! ## C4 — storage-failure translation in the write handlers -/

/-- **C4.** For every embedded write operation whose body validation
passes, a storage failure leaves the state unchanged and the handler
returns exactly `_handle_db_error` of the failure message: 409 "Conflict
(duplicate key)" when the message contains `"Duplicate entry"`, else 500
"Database error". -/
theorem write_storage_failure_translation :
    ∀ (op : WriteOp) (req : Request) (db : Db) (msg : String),
      db.failure = some msg → writeValidates op req = true →
      writeHandler op req db = (handle_db_error req msg, db) ∧
      (pyInStr "Duplicate entry" msg = true →
        handle_db_error req msg = error_response req "Conflict (duplicate key)" 409) ∧
      (pyInStr "Duplicate entry" msg = false →
        handle_db_error req msg = error_response req "Database error" 500) ∧
      (formatLegal req = true →
        ∃ r, handle_db_error req msg = .ok r ∧
          r.status = (if pyInStr "Duplicate entry" msg then 409 else 500) ∧
          r.errMsg = some (if pyInStr "Duplicate entry" msg then "Conflict (duplicate key)"
                           else "Database error")) := by
  intro op req db msg hfail hval
  refine ⟨?_, ?_, ?_, ?_⟩
  · cases op with
    | createCategory =>
      cases hv : pyOr (dictGet req.body "category_name") (.str "") with
      | str s =>
        simp only [writeValidates, hv] at hval
        simp only [writeHandler, create_category, hv, if_neg (of_decide_eq_true hval),
          Db.insertCategory, hfail]
      | null => simp [writeValidates, hv] at hval
      | bool b => simp [writeValidates, hv] at hval
      | int n => simp [writeValidates, hv] at hval
      | float q => simp [writeValidates, hv] at hval
      | list xs => simp [writeValidates, hv] at hval
      | obj kvs => simp [writeValidates, hv] at hval
    | updateCategory id =>
      cases hv : pyOr (dictGet req.body "category_name") (.str "") with
      | str s =>
        simp only [writeValidates, hv] at hval
        simp only [writeHandler, update_category, hv, if_neg (of_decide_eq_true hval),
          Db.updateCategory, hfail]
      | null => simp [writeValidates, hv] at hval
      | bool b => simp [writeValidates, hv] at hval
      | int n => simp [writeValidates, hv] at hval
      | float q => simp [writeValidates, hv] at hval
      | list xs => simp [writeValidates, hv] at hval
      | obj kvs => simp [writeValidates, hv] at hval
    | createProduct =>
      cases hv : pyOr (dictGet req.body "product_name") (.str "") with
      | str s =>
        simp only [writeValidates, hv, Bool.and_eq_true] at hval
        obtain ⟨hname, hcat⟩ := hval
        cases hp : parse_int (dictGet req.body "category_id") "category_id" (some 1) with
        | error e => rw [hp] at hcat; cases hcat
        | ok cid =>
          simp only [writeHandler, create_product, hv, hp,
            if_neg (of_decide_eq_true hname), Db.insertProduct, hfail]
      | null => simp [writeValidates, hv] at hval
      | bool b => simp [writeValidates, hv] at hval
      | int n => simp [writeValidates, hv] at hval
      | float q => simp [writeValidates, hv] at hval
      | list xs => simp [writeValidates, hv] at hval
      | obj kvs => simp [writeValidates, hv] at hval
    | createSale =>
      cases hcs : createSaleValidate req.body with
      | error e => simp [writeValidates, hcs, exOk] at hval
      | ok row =>
        simp only [writeHandler, create_sale, hcs, Db.insertSale, hfail]
    | updateSale id =>
      cases hus : updateSaleValidate req.body with
      | error e => simp [writeValidates, hus, exOk] at hval
      | ok t =>
        obtain ⟨product_id, sale_date, quantity, price, customer_id, region_id⟩ := t
        simp only [writeHandler, update_sale, hus, Db.updateSale, hfail]
    | deleteCategory id => simp only [writeHandler, delete_category, delete_from, hfail]
    | deleteRegion id => simp only [writeHandler, delete_region, delete_from, hfail]
    | deleteCustomer id => simp only [writeHandler, delete_customer, delete_from, hfail]
    | deleteProduct id => simp only [writeHandler, delete_product, delete_from, hfail]
    | deleteSale id => simp only [writeHandler, delete_sale, delete_from, hfail]
  · intro h
    unfold handle_db_error
    rw [h]
    rfl
  · intro h
    unfold handle_db_error
    rw [h]
    rfl
  · intro hfmt
    by_cases hd : pyInStr "Duplicate entry" msg = true
    · obtain ⟨fm, _, hr⟩ := error_response_ok req "Conflict (duplicate key)" 409 hfmt
      refine ⟨⟨409, fm,
        .obj [("error", .str "Conflict (duplicate key)"), ("status", .int 409)],
        none⟩, ?_, ?_, ?_⟩
      · unfold handle_db_error
        rw [if_pos hd]
        exact hr
      · simp [hd]
      · simp [hd, Response.errMsg, dictGet]
    · have hd' : pyInStr "Duplicate entry" msg = false := by
        revert hd; cases pyInStr "Duplicate entry" msg <;> simp
      obtain ⟨fm, _, hr⟩ := error_response_ok req "Database error" 500 hfmt
      refine ⟨⟨500, fm,
        .obj [("error", .str "Database error"), ("status", .int 500)], none⟩, ?_, ?_, ?_⟩
      · unfold handle_db_error
        rw [if_neg hd]
        exact hr
      · simp [hd']
      · simp [hd', Response.errMsg, dictGet]

/-- A storage state that fails every statement with a duplicate-key
message. -/
def dbDupFail : Db := { failure := some "Duplicate entry 'X' for key 'PRIMARY'" }

/-- A request with a valid category body and no format parameter. -/
def reqCatBody : Request := { body := [("category_name", .str "Toys")] }

/-- **C4 witness.** -/
theorem write_storage_failure_translation_witness :
    writeHandler .createCategory reqCatBody dbDupFail =
      (handle_db_error reqCatBody "Duplicate entry 'X' for key 'PRIMARY'", dbDupFail) ∧
    handle_db_error reqCatBody "Duplicate entry 'X' for key 'PRIMARY'" =
      error_response reqCatBody "Conflict (duplicate key)" 409 ∧
    (∃ r, handle_db_error reqCatBody "Duplicate entry 'X' for key 'PRIMARY'" = .ok r ∧
      r.status = (if pyInStr "Duplicate entry" "Duplicate entry 'X' for key 'PRIMARY'"
                  then 409 else 500) ∧
      r.errMsg = some (if pyInStr "Duplicate entry" "Duplicate entry 'X' for key 'PRIMARY'"
                       then "Conflict (duplicate key)" else "Database error")) :=
  let h := write_storage_failure_translation .createCategory reqCatBody dbDupFail
    "Duplicate entry 'X' for key 'PRIMARY'" rfl (by decide)
  ⟨h.1, h.2.1 (by decide), h.2.2.2 rfl⟩

/-! ## C8 — delete semantics -/

/-- The five resources with a delete route. -/
inductive Resource where
  | category
  | region
  | customer
  | product
  | sale

/-- The delete handler of each resource. -/
def deleteOf : Resource → Int → Request → Db → HResult
  | .category => delete_category
  | .region => delete_region
  | .customer => delete_customer
  | .product => delete_product
  | .sale => delete_sale

/-- Whether the resource's table holds a row with the given id. -/
def hasId : Resource → Int → Db → Bool
  | .category => fun id db => db.categories.any (fun r => r.category_id = id)
  | .region => fun id db => db.regions.any (fun r => r.region_id = id)
  | .customer => fun id db => db.customers.any (fun r => r.customer_id = id)
  | .product => fun id db => db.products.any (fun r => r.product_id = id)
  | .sale => fun id db => db.sales.any (fun r => r.sale_id = id)

/-- The payload key of each resource's delete response. -/
def idKeyOf : Resource → String
  | .category => "category_id"
  | .region => "region_id"
  | .customer => "customer_id"
  | .product => "product_id"
  | .sale => "sale_id"

lemma delete_from_absent {ρ : Type} (req : Request) (db : Db) (rows : List ρ)
    (idOf : ρ → Int) (put : List ρ → Db) (id : Int) (m k : String)
    (hfail : db.failure = none) (hfmt : formatLegal req = true)
    (habs : rows.any (fun r => idOf r = id) = false) :
    ∃ r, delete_from req db rows idOf put id m k = (.ok r, put rows) ∧
      r.status = 404 ∧ r.errMsg = some m := by
  have hall : rows.filter (fun r => idOf r ≠ id) = rows := by
    rw [List.filter_eq_self]
    intro a ha
    have := List.any_eq_false.mp habs a ha
    simpa using this
  obtain ⟨fm, _, hr⟩ := error_response_ok req m 404 hfmt
  refine ⟨⟨404, fm, .obj [("error", .str m), ("status", .int 404)], none⟩, ?_, rfl, rfl⟩
  unfold delete_from
  rw [hfail]
  simp only [hall, if_pos rfl, tryDb, hr]
  simp

lemma delete_from_present {ρ : Type} (req : Request) (db : Db) (rows : List ρ)
    (idOf : ρ → Int) (put : List ρ → Db) (id : Int) (m k : String)
    (hfail : db.failure = none) (hfmt : formatLegal req = true)
    (hpres : rows.any (fun r => idOf r = id) = true) :
    ∃ r, delete_from req db rows idOf put id m k =
        (.ok r, put (rows.filter (fun r => idOf r ≠ id))) ∧
      r.status = 200 ∧
      r.payload = .obj [("deleted", .bool true), (k, .int id)] ∧
      (rows.filter (fun r => idOf r ≠ id)).any (fun r => idOf r = id) = false := by
  have hlen : (rows.filter (fun r => idOf r ≠ id)).length ≠ rows.length := by
    intro he
    have heq := (List.filter_sublist (p := fun r => decide (idOf r ≠ id)) rows).eq_of_length he
    have hall := List.filter_eq_self.mp heq
    obtain ⟨x, hx, hpx⟩ := List.any_eq_true.mp hpres
    have hne := hall x hx
    simp only [decide_eq_true_eq] at hne
    exact hne (by simpa using hpx)
  obtain ⟨fm, _, hr⟩ :=
    api_response_ok req (.obj [("deleted", .bool true), (k, .int id)]) 200 hfmt
  refine ⟨⟨200, fm, .obj [("deleted", .bool true), (k, .int id)], none⟩, ?_, rfl, rfl, ?_⟩
  · unfold delete_from
    rw [hfail]
    simp only [if_neg hlen, tryDb, hr]
  · rw [List.any_eq_false]
    intro x hx
    have := (List.mem_filter.mp hx).2
    simpa using this

lemma delete_spec_generic {ρ : Type} (idOf : ρ → Int)
    (tbl : Db → List ρ) (set : Db → List ρ → Db)
    (handler : Int → Request → Db → HResult) (m k : String)
    (hhandler : ∀ d i r, handler i r d = delete_from r d (tbl d) idOf (set d) i m k)
    (htbl : ∀ d l, tbl (set d l) = l)
    (hfailpres : ∀ d l, (set d l).failure = d.failure)
    (hsettbl : ∀ d, set d (tbl d) = d)
    (id : Int) (req : Request) (db : Db)
    (hfail : db.failure = none) (hfmt : formatLegal req = true) :
    ((tbl db).any (fun r => idOf r = id) = false →
      ∃ r, (handler id req db).1 = .ok r ∧ r.status = 404 ∧
        (handler id req db).2 = db) ∧
    ((tbl db).any (fun r => idOf r = id) = true →
      ∃ r db2, handler id req db = (.ok r, db2) ∧ r.status = 200 ∧
        r.payload = .obj [("deleted", .bool true), (k, .int id)] ∧
        (tbl db2).any (fun r => idOf r = id) = false ∧
        (∃ r2, (handler id req db2).1 = .ok r2 ∧ r2.status = 404 ∧
          (handler id req db2).2 = db2)) := by
  constructor
  · intro habs
    obtain ⟨r, hEq, hst, _⟩ :=
      delete_from_absent req db (tbl db) idOf (set db) id m k hfail hfmt habs
    rw [hhandler, hEq]
    exact ⟨r, rfl, hst, hsettbl db⟩
  · intro hpres
    obtain ⟨r, hEq, hst, hpl, hgone⟩ :=
      delete_from_present req db (tbl db) idOf (set db) id m k hfail hfmt hpres
    refine ⟨r, set db ((tbl db).filter (fun r => idOf r ≠ id)), ?_, hst, hpl, ?_, ?_⟩
    · rw [hhandler, hEq]
    · rw [htbl]
      exact hgone
    · have hfail2 : (set db ((tbl db).filter (fun r => idOf r ≠ id))).failure = none := by
        rw [hfailpres, hfail]
      have habs2 : (tbl (set db ((tbl db).filter (fun r => idOf r ≠ id)))).any
          (fun r => idOf r = id) = false := by
        rw [htbl]
        exact hgone
      obtain ⟨r2, hEq2, hst2, _⟩ :=
        delete_from_absent req (set db ((tbl db).filter (fun r => idOf r ≠ id)))
          (tbl (set db ((tbl db).filter (fun r => idOf r ≠ id)))) idOf
          (set (set db ((tbl db).filter (fun r => idOf r ≠ id)))) id m k hfail2 hfmt habs2
      refine ⟨r2, ?_, hst2, ?_⟩
      · rw [hhandler, hEq2]
      · rw [hhandler, hEq2]
        exact hsettbl _

/-- **C8.** For every resource and identifier, delete on an id matching
no row returns 404 and leaves the state unchanged (so every repeat also
returns 404); delete on an existing id succeeds once with
`{deleted: true, id}` and removes the row, so an immediate repeat delete
of the same id returns 404. -/
theorem delete_idempotent (res : Resource) (id : Int) (req : Request) (db : Db)
    (hfail : db.failure = none) (hfmt : formatLegal req = true) :
    (hasId res id db = false →
      ∃ r, (deleteOf res id req db).1 = .ok r ∧ r.status = 404 ∧
        (deleteOf res id req db).2 = db) ∧
    (hasId res id db = true →
      ∃ r db2, deleteOf res id req db = (.ok r, db2) ∧ r.status = 200 ∧
        r.payload = .obj [("deleted", .bool true), (idKeyOf res, .int id)] ∧
        hasId res id db2 = false ∧
        (∃ r2, (deleteOf res id req db2).1 = .ok r2 ∧ r2.status = 404 ∧
          (deleteOf res id req db2).2 = db2)) := by
  cases res with
  | category =>
    exact delete_spec_generic (ρ := CategoryRow) (fun r => r.category_id) (fun d => d.categories)
      (fun d l => { d with categories := l }) delete_category
      "Category not found" "category_id"
      (fun d i r => rfl) (fun d l => rfl) (fun d l => rfl) (fun d => rfl)
      id req db hfail hfmt
  | region =>
    exact delete_spec_generic (ρ := RegionRow) (fun r => r.region_id) (fun d => d.regions)
      (fun d l => { d with regions := l }) delete_region
      "Region not found" "region_id"
      (fun d i r => rfl) (fun d l => rfl) (fun d l => rfl) (fun d => rfl)
      id req db hfail hfmt
  | customer =>
    exact delete_spec_generic (ρ := CustomerRow) (fun r => r.customer_id) (fun d => d.customers)
      (fun d l => { d with customers := l }) delete_customer
      "Customer not found" "customer_id"
      (fun d i r => rfl) (fun d l => rfl) (fun d l => rfl) (fun d => rfl)
      id req db hfail hfmt
  | product =>
    exact delete_spec_generic (ρ := ProductRow) (fun r => r.product_id) (fun d => d.products)
      (fun d l => { d with products := l }) delete_product
      "Product not found" "product_id"
      (fun d i r => rfl) (fun d l => rfl) (fun d l => rfl) (fun d => rfl)
      id req db hfail hfmt
  | sale =>
    exact delete_spec_generic (ρ := SaleRow) (fun r => r.sale_id) (fun d => d.sales)
      (fun d l => { d with sales := l }) delete_sale
      "Sale not found" "sale_id"
      (fun d i r => rfl) (fun d l => rfl) (fun d l => rfl) (fun d => rfl)
      id req db hfail hfmt

/-- A one-category state for the delete witness. -/
def dbOneCat : Db := { categories := [⟨1, "Food"⟩], nextCategoryId := 2 }

/-- **C8 witness.** -/
theorem delete_idempotent_witness :
    (∃ r db2, deleteOf .category 1 {} dbOneCat = (.ok r, db2) ∧ r.status = 200 ∧
      r.payload = .obj [("deleted", .bool true), ("category_id", .int 1)] ∧
      hasId .category 1 db2 = false ∧
      (∃ r2, (deleteOf .category 1 {} db2).1 = .ok r2 ∧ r2.status = 404 ∧
        (deleteOf .category 1 {} db2).2 = db2)) ∧
    (∃ r, (deleteOf .sale 7 {} {}).1 = .ok r ∧ r.status = 404 ∧
      (deleteOf .sale 7 {} {}).2 = ({} : Db)) :=
  ⟨(delete_idempotent .category 1 {} dbOneCat rfl rfl).2 (by decide),
   (delete_idempotent .sale 7 {} {} rfl rfl).1 rfl⟩

/-! ## C1 — 401 on protected routes -/

lemma protected_route_unfolds (app : App) (rt : Route) (h : isProtected rt = true) :
    ∃ fn, routeHandler app rt = require_jwt app fn := by
  cases rt with
  | health => cases h
  | login => cases h
  | listCategories => exact ⟨_, rfl⟩
  | createCategory => exact ⟨_, rfl⟩
  | getCategory id => exact ⟨_, rfl⟩
  | updateCategory id => exact ⟨_, rfl⟩
  | deleteCategory id => exact ⟨_, rfl⟩
  | deleteRegion id => exact ⟨_, rfl⟩
  | deleteCustomer id => exact ⟨_, rfl⟩
  | createProduct => exact ⟨_, rfl⟩
  | deleteProduct id => exact ⟨_, rfl⟩
  | listSales => exact ⟨_, rfl⟩
  | createSale => exact ⟨_, rfl⟩
  | getSale id => exact ⟨_, rfl⟩
  | updateSale id => exact ⟨_, rfl⟩
  | deleteSale id => exact ⟨_, rfl⟩
  | searchSales => exact ⟨_, rfl⟩

lemma require_jwt_of_badAuth (app : App) (req : Request) (db : Db)
    (hauth : badAuth app req = true) (fn : Request → Db → HResult) :
    ∃ msg, require_jwt app fn req db = (error_response req msg 401, db) := by
  unfold badAuth bearerToken at hauth
  simp only [require_jwt]
  by_cases hp : pyStartsWith (authHeaderStr req) "Bearer " = true
  · rw [if_neg (not_not_intro hp)]
    rw [hp] at hauth
    simp at hauth
    cases hv : app.verify (pyStrip (splitOnceSpaceRest (authHeaderStr req))) with
    | ok => rw [hv] at hauth; cases hauth
    | expired => exact ⟨"Token expired", rfl⟩
    | invalid => exact ⟨"Invalid token", rfl⟩
  · rw [if_pos (by simpa using hp)]
    exact ⟨"Missing or invalid Authorization header", rfl⟩

/-- **C1 (amended).** For every protected route, request body/query and
state, a request without a valid bearer token receives a 401 response and
leaves the state unchanged — *provided the `format` query parameter is
legal*.  (The claim's "including an unsupported format parameter" clause
fails: see the counterexample, where the 401 envelope cannot be encoded
and the request ends as the WSGI server's plain 500.) -/
theorem protected_routes_401 :
    ∀ (rt : Route), isProtected rt = true →
    ∀ (app : App) (req : Request) (db : Db),
      formatLegal req = true → badAuth app req = true →
      ∃ r, flaskDispatch app rt req db = (.resp r, db) ∧ r.status = 401 := by
  intro rt hprot app req db hfmt hauth
  obtain ⟨fn, hfn⟩ := protected_route_unfolds app rt hprot
  obtain ⟨msg, hmsg⟩ := require_jwt_of_badAuth app req db hauth fn
  obtain ⟨fm, _, hr⟩ := error_response_ok req msg 401 hfmt
  unfold flaskDispatch
  rw [hfn, hmsg, hr]
  exact ⟨_, rfl, rfl⟩

/-- A context that rejects every token as invalid. -/
def appInvalid : App := ⟨fun _ => .invalid, "admin", "pw", fun s => s⟩

/-- No `Authorization` header and an unsupported `format` value. -/
def reqNoAuthBadFmt : Request := { queryFormat := some "bogus" }

/-- **C1 counterexample.** A request with no bearer token *and* an
unsupported `format` parameter does not receive a 401: on a protected
route it ends as the WSGI server's plain 500 (the 401 envelope cannot be
encoded, and every error handler fails the same way). -/
theorem protected_routes_401_counterexample :
    badAuth appInvalid reqNoAuthBadFmt = true ∧
    (flaskDispatch appInvalid .listCategories reqNoAuthBadFmt {}).1 = .wsgiError ∧
    (flaskDispatch appInvalid .listCategories reqNoAuthBadFmt {}).1.statusCode = 500 ∧
    (flaskDispatch appInvalid .listCategories reqNoAuthBadFmt {}).1.statusCode ≠ 401 :=
  ⟨rfl, rfl, rfl, by decide⟩

/-- **C1 witness.** -/
theorem protected_routes_401_witness :
    ∃ r, flaskDispatch appExpired (.getSale 3) reqBearer {} = (.resp r, {}) ∧
      r.status = 401 :=
  protected_routes_401 (.getSale 3) rfl appExpired reqBearer {} rfl (by decide)

/-! ## C2 — unsupported `format` values -/

/-- An unsupported `format` value on an unauthenticated request. -/
def reqBadFmt : Request := { queryFormat := some "bogus" }

/-- A valid authenticated create-category request with an unsupported
`format` value. -/
def reqCreateBadFmt : Request :=
  { authHeader := some "Bearer t", queryFormat := some "bogus",
    body := [("category_name", .str "Toys")] }

/-- The computation renders (if at all) in the request's chosen format. -/
def fmtSound (req : Request) (e : Except Exc Response) : Prop :=
  ∀ r, e = .ok r → some r.fmt = reqFmt req

lemma fmtSound_api (req : Request) (payload : Value) (st : Nat) :
    fmtSound req (api_response req payload st) := by
  intro r hr
  unfold api_response at hr
  unfold reqFmt
  cases h : get_format req.queryFormat with
  | error e => rw [h] at hr; cases hr
  | ok f =>
    rw [h] at hr
    dsimp only at hr ⊢
    by_cases hx : f = "xml"
    · rw [if_pos hx] at hr; cases hr; simp [hx]
    · rw [if_neg hx] at hr; cases hr; simp [hx]

lemma fmtSound_error (req : Request) (msg : String) (st : Nat) :
    fmtSound req (error_response req msg st) := by
  intro r hr
  unfold error_response at hr
  exact fmtSound_api req _ st r hr

lemma fmtSound_hdb (req : Request) (msg : String) :
    fmtSound req (handle_db_error req msg) := by
  intro r hr
  unfold handle_db_error at hr
  by_cases h : pyInStr "Duplicate entry" msg = true
  · rw [if_pos h] at hr; exact fmtSound_error req _ _ r hr
  · rw [if_neg h] at hr; exact fmtSound_error req _ _ r hr

lemma fmtSound_tryDb (req : Request) (x : Except Exc Response)
    (hx : fmtSound req x) : fmtSound req (tryDb req x) := by
  intro r hr
  unfold tryDb at hr
  cases x with
  | ok resp => exact hx r hr
  | error e => exact fmtSound_hdb req _ r hr

lemma fmtSound_tryDbLoc (req : Request) (x : Except Exc Response) (loc : String)
    (hx : fmtSound req x) : fmtSound req (tryDbLoc req x loc) := by
  intro r hr
  unfold tryDbLoc at hr
  cases x with
  | ok resp => cases hr; exact hx resp rfl
  | error e => exact fmtSound_hdb req _ r hr

set_option maxHeartbeats 1000000 in
lemma fmtSound_routeHandler (app : App) (rt : Route) (req : Request) (db : Db) :
    fmtSound req (routeHandler app rt req db).1 := by
  cases rt <;>
    simp only [routeHandler, require_jwt, health, login, list_categories,
      create_category, get_category, update_category, delete_category, delete_region,
      delete_customer, create_product, delete_product, list_sales, create_sale,
      get_sale, update_sale, delete_sale, search_sales, delete_from] <;>
    repeat' split
  all_goals
    first
      | exact fmtSound_api req _ _
      | exact fmtSound_error req _ _
      | exact fmtSound_hdb req _
      | exact fmtSound_tryDb req _ (fmtSound_error req _ _)
      | exact fmtSound_tryDb req _ (fmtSound_api req _ _)
      | exact fmtSound_tryDbLoc req _ _ (fmtSound_api req _ _)
      | (intro r hr; cases hr)

lemma flaskDispatch_fmt (app : App) (rt : Route) (req : Request) (db : Db)
    (r : Response) (db2 : Db) (h : flaskDispatch app rt req db = (.resp r, db2)) :
    some r.fmt = reqFmt req := by
  unfold flaskDispatch at h
  cases hh : routeHandler app rt req db with
  | mk e db3 =>
    rw [hh] at h
    cases e with
    | ok resp =>
      dsimp only at h
      cases h
      exact fmtSound_routeHandler app rt req db _ (by rw [hh])
    | error exc =>
      dsimp only at h
      have herrfmt : ∀ (x : Exc), fmtSound req (app_error_handler req x) := by
        intro x
        cases x with
        | badRequest msg => exact fmtSound_error req _ _
        | notFound => exact fmtSound_error req _ _
        | dbError m => exact fmtSound_error req _ _
        | pyError m => exact fmtSound_error req _ _
      cases hah : app_error_handler req exc with
      | ok resp =>
        rw [hah] at h
        dsimp only at h
        cases h
        exact herrfmt exc _ hah
      | error e2 =>
        rw [hah] at h
        dsimp only at h
        cases hfb : error_response req "Internal server error" 500 with
        | ok resp =>
          rw [hfb] at h
          dsimp only at h
          cases h
          exact fmtSound_error req _ _ _ hfb
        | error e3 =>
          rw [hfb] at h
          dsimp only at h
          cases h

/-- **C2 (code bug).** `_get_format` raises a 400 `BadRequest` for an
unsupported `format` value, but no route can ever deliver that 400: the
error handlers re-run the format check and raise again, so the request
escapes the app and surfaces as the WSGI server's plain 500.  Nor does
the check run before handler logic: a create with a bad `format` still
commits its insert (the state gains the row) before the encoding fails.
The true remainder of the claim holds: any response that *is* rendered
(success or error, on every route) is in the request's chosen format —
JSON when `format` is absent or `json`, XML when `xml`. -/
theorem bad_format_never_renders_400 :
    get_format (some "bogus") = .error (.badRequest "format must be 'json' or 'xml'") ∧
    (flaskDispatch appValid .health reqBadFmt {}).1 = .wsgiError ∧
    (flaskDispatch appValid .health reqBadFmt {}).1.statusCode = 500 ∧
    (flaskDispatch appValid .health reqBadFmt {}).1.statusCode ≠ 400 ∧
    (flaskDispatch appValid .createCategory reqCreateBadFmt {}).1 = .wsgiError ∧
    ((flaskDispatch appValid .createCategory reqCreateBadFmt {}).2).categories =
      [⟨1, "Toys"⟩] ∧
    ({} : Db).categories = ([] : List CategoryRow) ∧
    (∀ (app : App) (rt : Route) (req : Request) (db : Db) (r : Response) (db2 : Db),
      flaskDispatch app rt req db = (.resp r, db2) → some r.fmt = reqFmt req) ∧
    reqFmt { queryFormat := none } = some .json ∧
    reqFmt { queryFormat := some "json" } = some .json ∧
    reqFmt { queryFormat := some "xml" } = some .xml ∧
    reqFmt reqBadFmt = none :=
  ⟨rfl, rfl, rfl, by decide, rfl, rfl, rfl,
   fun app rt req db r db2 h => flaskDispatch_fmt app rt req db r db2 h,
   rfl, rfl, rfl, rfl⟩

/-! ## C7 — sales search -/

/-- The spec's description of when a view row matches the supplied
filters: partial case-insensitive substring match on product, category
and region names; exact match on the parsed customer id; inclusive date
bounds; an absent (or empty, hence falsy) filter imposes nothing. -/
def specSaleMatch (req : Request) (row : DenormRow) : Bool :=
  (match req.qProductName with
   | some s => s = "" || likeCI s row.product_name
   | none => true) &&
  (match req.qCategoryName with
   | some s => s = "" || likeCI s row.product_category
   | none => true) &&
  (match req.qRegionName with
   | some s => s = "" || likeCI s row.region
   | none => true) &&
  (match req.qCustomerId with
   | some s => s = "" ||
     (match parse_int (.str s) "customer_id" (some 1) with
      | .ok n => row.customer_id = n
      | .error _ => false)
   | none => true) &&
  (match req.qDateFrom with
   | some s => s = "" ||
     (match parse_date (.str s) "date_from" with
      | .ok d => d.le row.sale_date
      | .error _ => false)
   | none => true) &&
  (match req.qDateTo with
   | some s => s = "" ||
     (match parse_date (.str s) "date_to" with
      | .ok d => row.sale_date.le d
      | .error _ => false)
   | none => true)

lemma buildSaleFilters_ok (req : Request) (conds : List SaleCond)
    (hf : buildSaleFilters req = .ok conds) :
    ∃ c f t, custFilter req = .ok c ∧ fromFilter req = .ok f ∧ toFilter req = .ok t ∧
      conds = strFilters req ++ c ++ f ++ t := by
  unfold buildSaleFilters at hf
  cases hc : custFilter req with
  | error e => rw [hc] at hf; cases hf
  | ok c =>
    rw [hc] at hf
    cases hfr : fromFilter req with
    | error e => rw [hfr] at hf; cases hf
    | ok f =>
      rw [hfr] at hf
      cases htt : toFilter req with
      | error e => rw [htt] at hf; cases hf
      | ok t =>
        rw [htt] at hf
        cases hf
        exact ⟨c, f, t, rfl, rfl, rfl, rfl⟩

lemma optLike_all (o : Option String) (mk : String → SaleCond) (row : DenormRow) :
    ((match o with
      | some s => if s = "" then [] else [mk s]
      | none => ([] : List SaleCond)).all (condHolds row)) =
      (match o with
       | some s => s = "" || condHolds row (mk s)
       | none => true) := by
  cases o with
  | none => rfl
  | some s =>
    by_cases hs : s = ""
    · simp [hs]
    · simp [hs]

lemma custFilter_all (req : Request) (c : List SaleCond) (row : DenormRow)
    (hc : custFilter req = .ok c) :
    c.all (condHolds row) =
      (match req.qCustomerId with
       | some s => s = "" ||
         (match parse_int (.str s) "customer_id" (some 1) with
          | .ok n => row.customer_id = n
          | .error _ => false)
       | none => true) := by
  unfold custFilter at hc
  cases hq : req.qCustomerId with
  | none => rw [hq] at hc; cases hc; rfl
  | some s =>
    rw [hq] at hc
    dsimp only at hc ⊢
    by_cases hs : s = ""
    · rw [if_pos hs] at hc; cases hc; simp [hs]
    · rw [if_neg hs] at hc
      cases hp : parse_int (.str s) "customer_id" (some 1) with
      | error e => rw [hp] at hc; cases hc
      | ok n => rw [hp] at hc; cases hc; simp [hs, condHolds]

lemma fromFilter_all (req : Request) (f : List SaleCond) (row : DenormRow)
    (hc : fromFilter req = .ok f) :
    f.all (condHolds row) =
      (match req.qDateFrom with
       | some s => s = "" ||
         (match parse_date (.str s) "date_from" with
          | .ok d => d.le row.sale_date
          | .error _ => false)
       | none => true) := by
  unfold fromFilter at hc
  cases hq : req.qDateFrom with
  | none => rw [hq] at hc; cases hc; rfl
  | some s =>
    rw [hq] at hc
    dsimp only at hc ⊢
    by_cases hs : s = ""
    · rw [if_pos hs] at hc; cases hc; simp [hs]
    · rw [if_neg hs] at hc
      cases hp : parse_date (.str s) "date_from" with
      | error e => rw [hp] at hc; cases hc
      | ok d => rw [hp] at hc; cases hc; simp [hs, condHolds]

lemma toFilter_all (req : Request) (t : List SaleCond) (row : DenormRow)
    (hc : toFilter req = .ok t) :
    t.all (condHolds row) =
      (match req.qDateTo with
       | some s => s = "" ||
         (match parse_date (.str s) "date_to" with
          | .ok d => row.sale_date.le d
          | .error _ => false)
       | none => true) := by
  unfold toFilter at hc
  cases hq : req.qDateTo with
  | none => rw [hq] at hc; cases hc; rfl
  | some s =>
    rw [hq] at hc
    dsimp only at hc ⊢
    by_cases hs : s = ""
    · rw [if_pos hs] at hc; cases hc; simp [hs]
    · rw [if_neg hs] at hc
      cases hp : parse_date (.str s) "date_to" with
      | error e => rw [hp] at hc; cases hc
      | ok d => rw [hp] at hc; cases hc; simp [hs, condHolds]

lemma strFilters_all (req : Request) (row : DenormRow) :
    (strFilters req).all (condHolds row) =
      ((match req.qProductName with
        | some s => s = "" || likeCI s row.product_name
        | none => true) &&
       (match req.qCategoryName with
        | some s => s = "" || likeCI s row.product_category
        | none => true) &&
       (match req.qRegionName with
        | some s => s = "" || likeCI s row.region
        | none => true)) := by
  unfold strFilters
  rw [List.all_append, List.all_append]
  rw [optLike_all req.qProductName SaleCond.likeProduct row,
      optLike_all req.qCategoryName SaleCond.likeCategory row,
      optLike_all req.qRegionName SaleCond.likeRegion row]
  rfl

lemma conds_all_eq_spec (req : Request) (conds : List SaleCond) (row : DenormRow)
    (hf : buildSaleFilters req = .ok conds) :
    conds.all (condHolds row) = specSaleMatch req row := by
  obtain ⟨c, f, t, hc, hfr, htt, rfl⟩ := buildSaleFilters_ok req conds hf
  rw [List.all_append, List.all_append, List.all_append]
  rw [strFilters_all req row, custFilter_all req c row hc,
      fromFilter_all req f row hfr, toFilter_all req t row htt]
  unfold specSaleMatch
  simp [Bool.and_assoc]

instance : IsTotal DenormRow (fun a b => a.sale_id ≤ b.sale_id) :=
  ⟨fun x y => Int.le_total x.sale_id y.sale_id⟩

instance : IsTrans DenormRow (fun a b => a.sale_id ≤ b.sale_id) :=
  ⟨fun _ _ _ h1 h2 => le_trans h1 h2⟩

/-- **C7.** For a search request whose filters parse, every supplied
filter contributes one conjunct (absent filters are omitted; all six
absent means no conjuncts), the returned rows are exactly the view rows
satisfying the conjunction — equivalently the spec's per-filter matching
predicate — ordered by sale id ascending, the `count` field equals the
number of items, and the state is untouched. -/
theorem search_sales_spec (req : Request) (db : Db) (conds : List SaleCond)
    (hfail : db.failure = none) (hfmt : formatLegal req = true)
    (hf : buildSaleFilters req = .ok conds) :
    (∃ r, search_sales req db = (.ok r, db) ∧ r.status = 200 ∧
      r.payload = .obj
        [("items", .list ((searchRows conds db.denorm).map denormRowValue)),
         ("count", .int ((searchRows conds db.denorm).length : Int))]) ∧
    ((searchRows conds db.denorm).map denormRowValue).length =
      (searchRows conds db.denorm).length ∧
    (∀ row, row ∈ searchRows conds db.denorm ↔
      (row ∈ db.denorm ∧ specSaleMatch req row = true)) ∧
    (searchRows conds db.denorm).Pairwise (fun a b => a.sale_id ≤ b.sale_id) ∧
    (conds = [] → (searchRows conds db.denorm).Perm db.denorm) ∧
    (req.qProductName = none → req.qCategoryName = none → req.qRegionName = none →
     req.qCustomerId = none → req.qDateFrom = none → req.qDateTo = none →
       conds = []) := by
  refine ⟨?_, List.length_map _ _, ?_, ?_, ?_, ?_⟩
  · obtain ⟨fm, _, hr⟩ := api_response_ok req
      (.obj [("items", .list ((searchRows conds db.denorm).map denormRowValue)),
             ("count", .int ((searchRows conds db.denorm).length : Int))]) 200 hfmt
    refine ⟨⟨200, fm,
      .obj [("items", .list ((searchRows conds db.denorm).map denormRowValue)),
            ("count", .int ((searchRows conds db.denorm).length : Int))], none⟩,
      ?_, rfl, rfl⟩
    unfold search_sales
    rw [hf, hfail]
    simp only [tryDb, hr]
  · intro row
    unfold searchRows
    rw [List.mem_insertionSort, List.mem_filter]
    rw [conds_all_eq_spec req conds row hf]
  · exact List.sorted_insertionSort _ _
  · rintro rfl
    unfold searchRows
    simp only [List.all_nil, List.filter_true]
    exact List.perm_insertionSort _ _
  · intro h1 h2 h3 h4 h5 h6
    unfold buildSaleFilters custFilter fromFilter toFilter strFilters at hf
    rw [h1, h2, h3, h4, h5, h6] at hf
    cases hf
    rfl

/-- The customer-42 search scenario: `GET /api/sales/search?customer_id=42`. -/
def reqCust42 : Request := { authHeader := some "Bearer t", qCustomerId := some "42" }

/-- Three view rows: two for customer 42 (out of order), one for 7. -/
def dbDenorm : Db :=
  { denorm := [⟨5, "Laptop", "Tech", "West", 42, ⟨2023, 1, 5⟩, []⟩,
               ⟨1, "Apple", "Food", "East", 7, ⟨2023, 2, 5⟩, []⟩,
               ⟨2, "Mouse", "Tech", "West", 42, ⟨2023, 1, 9⟩, []⟩] }

/-- **C7 witness.** The customer-42 scenario: only customer 42's rows
come back, ascending by sale id, with `count = len(items)`. -/
theorem search_sales_spec_witness :
    buildSaleFilters reqCust42 = .ok [SaleCond.custEq 42] ∧
    searchRows [SaleCond.custEq 42] dbDenorm.denorm =
      [⟨2, "Mouse", "Tech", "West", 42, ⟨2023, 1, 9⟩, []⟩,
       ⟨5, "Laptop", "Tech", "West", 42, ⟨2023, 1, 5⟩, []⟩] ∧
    (∃ r, search_sales reqCust42 dbDenorm = (.ok r, dbDenorm) ∧ r.status = 200) ∧
    (∀ row, row ∈ searchRows [SaleCond.custEq 42] dbDenorm.denorm ↔
      (row ∈ dbDenorm.denorm ∧ specSaleMatch reqCust42 row = true)) := by
  obtain ⟨⟨r, h1, h2, _⟩, _, hmem, _⟩ :=
    search_sales_spec reqCust42 dbDenorm [SaleCond.custEq 42] rfl rfl rfl
  exact ⟨rfl, rfl, ⟨r, h1, h2⟩, hmem⟩

end CrudFlask
